import Mathlib

/-!
Verification development for the GenesisEngine player kinematic controller
and its collision query engine.

The definitions below are a shallow embedding of the C++ source:
  - src/src/math/Math.h            (Vec3, AABB)
  - src/src/world/WorldCollision.h (WorldBox, WorldCollision queries)
  - src/src/player/PlayerController.{h,cpp} (PlayerController state and Update)
  - src/game/main.cpp              (callback wiring and the game configuration)

Scalars are modelled as rationals.  The C++ code calls sqrt in a few places
(Math::Length / Math::Normalize); those call sites are embedded by passing an
explicit square-root function `sq : Rat -> Rat` into the affected
definitions.  Theorems that depend on the numeric value of a square root
constrain `sq` at exactly the arguments the code evaluates; theorems that do
not depend on it quantify over an arbitrary `sq`.
-/

namespace Genesis

/-- Vec3 from Math.h, components as rationals. -/
structure Vec3 where
  x : ℚ
  y : ℚ
  z : ℚ


namespace Vec3

def add (a b : Vec3) : Vec3 := ⟨a.x + b.x, a.y + b.y, a.z + b.z⟩

def sub (a b : Vec3) : Vec3 := ⟨a.x - b.x, a.y - b.y, a.z - b.z⟩

def smul (k : ℚ) (v : Vec3) : Vec3 := ⟨k * v.x, k * v.y, k * v.z⟩

/-- Math::Dot for Vec3. -/
def dot (a b : Vec3) : ℚ := a.x * b.x + a.y * b.y + a.z * b.z

/-- Squared length (the argument passed to sqrt by Math::Length). -/
def lenSq (v : Vec3) : ℚ := v.x * v.x + v.y * v.y + v.z * v.z

def zero : Vec3 := ⟨0, 0, 0⟩

end Vec3

/-- Math::Length, with the square root supplied explicitly. -/
def lengthVia (sq : ℚ → ℚ) (v : Vec3) : ℚ := sq v.lenSq

/-- AABB from Math.h. -/
structure AABB where
  lo : Vec3
  hi : Vec3


namespace AABB

/-- AABB::FromCenterExtents. -/
def fromCenterExtents (center halfExtents : Vec3) : AABB :=
  ⟨center.sub halfExtents, center.add halfExtents⟩

/-- AABB::Intersects (inclusive on all faces, as in Math.h). -/
def intersects (a b : AABB) : Bool :=
  a.lo.x ≤ b.hi.x && a.hi.x ≥ b.lo.x &&
  a.lo.y ≤ b.hi.y && a.hi.y ≥ b.lo.y &&
  a.lo.z ≤ b.hi.z && a.hi.z ≥ b.lo.z

end AABB

/-- BoxTag from WorldCollision.h. -/
inductive BoxTag where
  | default
  | stair
  | ramp
  | platform
  | trigger
deriving DecidableEq

/-- WorldBox from WorldCollision.h. -/
structure WorldBox where
  center : Vec3
  halfExtents : Vec3
  isSolid : Bool := true
  tag : BoxTag := BoxTag.default


namespace WorldBox

/-- WorldBox::GetAABB. -/
def getAABB (b : WorldBox) : AABB :=
  ⟨b.center.sub b.halfExtents, b.center.add b.halfExtents⟩

/-- WorldBox::GetTop. -/
def getTop (b : WorldBox) : ℚ := b.center.y + b.halfExtents.y

/-- WorldBox::GetBottom. -/
def getBottom (b : WorldBox) : ℚ := b.center.y - b.halfExtents.y

/-- WorldBox::IsStair. -/
def isStair (b : WorldBox) : Bool := b.tag = BoxTag.stair

end WorldBox

/-- The WorldCollision singleton state: the flat box list and the floor
baseline (m_floorHeight). -/
structure World where
  boxes : List WorldBox
  floorHeight : ℚ := 0


namespace World

/-- Loop body of WorldCollision::GetStairClimbHeight, folded over the box
list with the running best stair top (initially -1). -/
def stairStepBest (x z playerY playerRadius maxStairHeight : ℚ) (moveDir : Vec3)
    (best : ℚ) (b : WorldBox) : ℚ :=
  if !(b.isStair && b.isSolid) then best
  else
    let aabb := b.getAABB
    let boxTop := b.getTop
    let heightAbovePlayer := boxTop - playerY
    if heightAbovePlayer ≤ 0 ∨ heightAbovePlayer > maxStairHeight then best
    else
      let checkRadius := playerRadius + 1/10
      let checkX := x + moveDir.x * checkRadius
      let checkZ := z + moveDir.z * checkRadius
      if checkX ≥ aabb.lo.x - checkRadius ∧ checkX ≤ aabb.hi.x + checkRadius ∧
         checkZ ≥ aabb.lo.z - checkRadius ∧ checkZ ≤ aabb.hi.z + checkRadius then
        if boxTop > best then boxTop else best
      else best

/-- WorldCollision::GetStairClimbHeight. -/
def getStairClimbHeight (w : World) (x z playerY playerRadius maxStairHeight : ℚ)
    (moveDir : Vec3) : ℚ :=
  w.boxes.foldl (stairStepBest x z playerY playerRadius maxStairHeight moveDir) (-1)

/-- Loop body of WorldCollision::GetGroundHeight. -/
def groundStepBest (x z radius playerY : ℚ) (best : ℚ) (b : WorldBox) : ℚ :=
  if !b.isSolid then best
  else
    let aabb := b.getAABB
    let inset := radius * (1/2)
    if x ≥ aabb.lo.x - inset ∧ x ≤ aabb.hi.x + inset ∧
       z ≥ aabb.lo.z - inset ∧ z ≤ aabb.hi.z + inset then
      let boxTop := b.getTop
      if playerY ≥ boxTop - 3/10 then
        if boxTop > best then boxTop else best
      else best
    else best

/-- WorldCollision::GetGroundHeight (radius defaults to 0.3 at the wiring in
main.cpp, playerY is the vertical search hint). -/
def getGroundHeight (w : World) (x z radius playerY : ℚ) : ℚ :=
  w.boxes.foldl (groundStepBest x z radius playerY) w.floorHeight

/-- Per-box blocking test: the loop body of WorldCollision::CheckCollision,
evaluated on the already-shrunk query bounds. Returns true exactly when this
box makes CheckCollision return true. -/
def boxBlocks (shrunkBounds : AABB) (playerBottom maxClimbHeight : ℚ)
    (b : WorldBox) : Bool :=
  b.isSolid && shrunkBounds.intersects b.getAABB &&
  (let boxTop := b.getAABB.hi.y
   let heightAbovePlayer := boxTop - playerBottom
   !(b.isStair && decide (heightAbovePlayer > 0) && decide (heightAbovePlayer ≤ maxClimbHeight)) &&
   decide (playerBottom < boxTop - 6/10))

/-- WorldCollision::CheckCollision. The position argument is unused by the
C++ body as well; it is kept for signature fidelity. -/
def checkCollision (w : World) (position : Vec3) (playerBounds : AABB)
    (maxClimbHeight : ℚ) : Bool :=
  let skinXZ : ℚ := 5/100
  let skinY : ℚ := 2/100
  let shrunkBounds : AABB :=
    ⟨playerBounds.lo.add ⟨skinXZ, skinY, skinXZ⟩,
     playerBounds.hi.sub ⟨skinXZ, skinY, skinXZ⟩⟩
  let playerBottom := shrunkBounds.lo.y
  w.boxes.any (boxBlocks shrunkBounds playerBottom maxClimbHeight)

/-- Accumulator for GetPenetration: (pushOut, smallestPenetration, anyCollision). -/
structure PenAcc where
  pushOut : Vec3
  smallest : ℚ
  anyCollision : Bool


/-- Whether a box overlaps the player bounds in the sense of the overlap test
inside WorldCollision::GetPenetration (all three per-axis overlaps strictly
positive). -/
def penOverlaps (playerBounds : AABB) (b : WorldBox) : Bool :=
  let boxAABB := b.getAABB
  let overlapX := min (playerBounds.hi.x - boxAABB.lo.x) (boxAABB.hi.x - playerBounds.lo.x)
  let overlapY := min (playerBounds.hi.y - boxAABB.lo.y) (boxAABB.hi.y - playerBounds.lo.y)
  let overlapZ := min (playerBounds.hi.z - boxAABB.lo.z) (boxAABB.hi.z - playerBounds.lo.z)
  overlapX > 0 && overlapY > 0 && overlapZ > 0

/-- Whether a stair box is exempted ("can be climbed") by the stair check
inside WorldCollision::GetPenetration. -/
def penStairExempt (playerBottom maxClimbHeight : ℚ) (b : WorldBox) : Bool :=
  let heightAbovePlayer := b.getAABB.hi.y - playerBottom
  b.isStair && decide (heightAbovePlayer > 0) && decide (heightAbovePlayer ≤ maxClimbHeight)

/-- Loop body of WorldCollision::GetPenetration. -/
def penStep (playerBounds : AABB) (playerBottom maxClimbHeight : ℚ)
    (acc : PenAcc) (b : WorldBox) : PenAcc :=
  if !b.isSolid then acc
  else
    let boxAABB := b.getAABB
    let overlapX := min (playerBounds.hi.x - boxAABB.lo.x) (boxAABB.hi.x - playerBounds.lo.x)
    let overlapZ := min (playerBounds.hi.z - boxAABB.lo.z) (boxAABB.hi.z - playerBounds.lo.z)
    if !(penOverlaps playerBounds b) then acc
    else
      let boxTop := boxAABB.hi.y
      if penStairExempt playerBottom maxClimbHeight b then acc
      else
        let acc := { acc with anyCollision := true }
        if playerBottom ≥ boxTop - 1/10 then acc
        else
          let playerCenterX := (playerBounds.lo.x + playerBounds.hi.x) * (1/2)
          let playerCenterZ := (playerBounds.lo.z + playerBounds.hi.z) * (1/2)
          let boxCenterX := (boxAABB.lo.x + boxAABB.hi.x) * (1/2)
          let boxCenterZ := (boxAABB.lo.z + boxAABB.hi.z) * (1/2)
          if overlapX < overlapZ then
            let pushDist := overlapX + 1/100
            if playerCenterX < boxCenterX then
              if pushDist < acc.smallest then
                { acc with smallest := pushDist, pushOut := ⟨-pushDist, 0, 0⟩ }
              else acc
            else
              if pushDist < acc.smallest then
                { acc with smallest := pushDist, pushOut := ⟨pushDist, 0, 0⟩ }
              else acc
          else
            let pushDist := overlapZ + 1/100
            if playerCenterZ < boxCenterZ then
              if pushDist < acc.smallest then
                { acc with smallest := pushDist, pushOut := ⟨0, 0, -pushDist⟩ }
              else acc
            else
              if pushDist < acc.smallest then
                { acc with smallest := pushDist, pushOut := ⟨0, 0, pushDist⟩ }
              else acc

/-- WorldCollision::GetPenetration: returns (anyCollision, pushOut). -/
def getPenetration (w : World) (playerBounds : AABB) (maxClimbHeight : ℚ) :
    Bool × Vec3 :=
  let playerBottom := playerBounds.lo.y
  let acc := w.boxes.foldl (penStep playerBounds playerBottom maxClimbHeight)
    ⟨Vec3.zero, 1000, false⟩
  (acc.anyCollision, acc.pushOut)

end World

/-- PlayerControllerConfig (the fields exercised by the simulation core). -/
structure Config where
  capsuleRadius : ℚ := 3/10
  capsuleHeight : ℚ := 9/5
  walkSpeed : ℚ := 5
  sprintSpeed : ℚ := 15/2
  crouchSpeed : ℚ := 5/2
  groundAccelerate : ℚ := 15
  groundFriction : ℚ := 12
  stopSpeed : ℚ := 3
  airAccelerate : ℚ := 10
  airSpeedCap : ℚ := 7/10
  airFriction : ℚ := 0
  jumpForce : ℚ := 8
  jumpCooldown : ℚ := 1/10
  maxAirJumps : ℕ := 0
  gravity : ℚ := 20
  maxFallSpeed : ℚ := 50
  groundCheckDistance : ℚ := 1/10
  stepHeight : ℚ := 35/100
  autoClimbStairHeight : ℚ := 1/2
  stairClimbSpeed : ℚ := 8


/-- The configuration installed by game/main.cpp. -/
def cfgGame : Config :=
  { walkSpeed := 6, sprintSpeed := 9, crouchSpeed := 3,
    groundAccelerate := 10, groundFriction := 5, stopSpeed := 3/2,
    airAccelerate := 12, airSpeedCap := 7/10, airFriction := 0,
    jumpForce := 8, gravity := 25, maxFallSpeed := 50,
    stepHeight := 35/100, capsuleRadius := 3/10, capsuleHeight := 9/5,
    groundCheckDistance := 15/100,
    autoClimbStairHeight := 1/2, stairClimbSpeed := 10 }

/-- GroundInfo from PlayerController.h (slope fields are never read by the
tick and are carried through unchanged). -/
structure GroundInfo where
  isGrounded : Bool := false
  groundNormal : Vec3 := ⟨0, 1, 0⟩
  groundDistance : ℚ := 0
  groundPoint : Vec3 := Vec3.zero
  isOnSlope : Bool := false
  slopeAngle : ℚ := 0


/-- Player kinematic state: the controller member variables that the tick
reads or writes.  Yaw/pitch are not stored; the tick consumes them only
through GetForwardXZ/GetRightXZ, which the embedding abstracts as the
`fwd`/`rgt` arguments of the step functions. -/
structure PlayerState where
  position : Vec3 := Vec3.zero
  velocity : Vec3 := Vec3.zero
  moveInput : Vec3 := Vec3.zero
  isSprinting : Bool := false
  isCrouching : Bool := false
  isJumping : Bool := false
  isMoving : Bool := false
  wantsToJump : Bool := false
  jumpCooldownTimer : ℚ := 0
  airJumpsRemaining : ℕ := 0
  groundInfo : GroundInfo := {}
  currentHeight : ℚ := 9/5


/-- PlayerController::GetAABB for the Capsule collider type (the type the
game uses). -/
def playerAABB (cfg : Config) (s : PlayerState) : AABB :=
  AABB.fromCenterExtents (s.position.add ⟨0, s.currentHeight * (1/2), 0⟩)
    ⟨cfg.capsuleRadius, s.currentHeight * (1/2), cfg.capsuleRadius⟩

/-- The jump cooldown timer value after the decrement at the top of Update
(lines 38-40). -/
def cooldownAfter (s : PlayerState) (dt : ℚ) : ℚ :=
  if s.jumpCooldownTimer > 0 then s.jumpCooldownTimer - dt else s.jumpCooldownTimer

/-- Cooldown decrement plus the jump-request block at the top of
PlayerController::Update (lines 37-62). -/
def jumpStep (cfg : Config) (s : PlayerState) (dt : ℚ) : PlayerState :=
  let t1 := cooldownAfter s dt
  if s.wantsToJump then
    if t1 ≤ 0 then
      if s.groundInfo.isGrounded then
        { s with velocity := { s.velocity with y := cfg.jumpForce },
                 isJumping := true,
                 jumpCooldownTimer := cfg.jumpCooldown,
                 groundInfo := { s.groundInfo with isGrounded := false },
                 wantsToJump := false }
      else if s.airJumpsRemaining > 0 then
        { s with velocity := { s.velocity with y := cfg.jumpForce },
                 isJumping := true,
                 jumpCooldownTimer := cfg.jumpCooldown,
                 groundInfo := { s.groundInfo with isGrounded := false },
                 airJumpsRemaining := s.airJumpsRemaining - 1,
                 wantsToJump := false }
      else
        { s with jumpCooldownTimer := t1, wantsToJump := false }
    else
      { s with jumpCooldownTimer := t1, wantsToJump := false }
  else
    { s with jumpCooldownTimer := t1 }

/-- The gravity pass of Update (lines 64-68). -/
def gravityStep (cfg : Config) (s : PlayerState) (dt : ℚ) : PlayerState :=
  if !s.groundInfo.isGrounded || s.isJumping then
    { s with velocity :=
        { s.velocity with y := max (s.velocity.y - cfg.gravity * dt) (-cfg.maxFallSpeed) } }
  else s

/-- PlayerController::ApplyFriction. -/
def applyFriction (sq : ℚ → ℚ) (cfg : Config) (isMoving : Bool) (dt : ℚ)
    (v : Vec3) : Vec3 :=
  let vel : Vec3 := ⟨v.x, 0, v.z⟩
  let speed := lengthVia sq vel
  if speed < 1/10 then ⟨0, v.y, 0⟩
  else
    let friction := if !isMoving then cfg.groundFriction * (5/2) else cfg.groundFriction
    let control := if speed < cfg.stopSpeed then cfg.stopSpeed else speed
    let drop := control * friction * dt
    let newSpeed := if speed - drop < 0 then 0 else speed - drop
    if speed > 0 then
      let scale := newSpeed / speed
      ⟨v.x * scale, v.y, v.z * scale⟩
    else v

/-- PlayerController::ApplyGroundAcceleration. -/
def applyGroundAcceleration (cfg : Config) (wishDir : Vec3) (wishSpeed dt : ℚ)
    (v : Vec3) : Vec3 :=
  let currentSpeed := Vec3.dot ⟨v.x, 0, v.z⟩ wishDir
  let addSpeed := wishSpeed - currentSpeed
  if addSpeed ≤ 0 then v
  else
    let accelSpeed0 := cfg.groundAccelerate * dt * wishSpeed
    let accelSpeed := if accelSpeed0 > addSpeed then addSpeed else accelSpeed0
    ⟨v.x + accelSpeed * wishDir.x, v.y, v.z + accelSpeed * wishDir.z⟩

/-- PlayerController::ApplyAirAcceleration.  Note the asymmetry preserved
from the source: the target is capped via wishSpeedCapped but the
acceleration magnitude uses the uncapped wishSpeed. -/
def applyAirAcceleration (sq : ℚ → ℚ) (cfg : Config) (wishDir : Vec3)
    (wishSpeed dt : ℚ) (v : Vec3) : Vec3 :=
  let wishSpeedCapped := min wishSpeed (cfg.airSpeedCap * cfg.walkSpeed)
  let currentSpeed := Vec3.dot ⟨v.x, 0, v.z⟩ wishDir
  let addSpeed := wishSpeedCapped - currentSpeed
  if addSpeed ≤ 0 then v
  else
    let accelSpeed0 := cfg.airAccelerate * dt * wishSpeed
    let accelSpeed := if accelSpeed0 > addSpeed then addSpeed else accelSpeed0
    let v1 : Vec3 := ⟨v.x + accelSpeed * wishDir.x, v.y, v.z + accelSpeed * wishDir.z⟩
    if cfg.airFriction > 0 then
      let speed := lengthVia sq ⟨v1.x, 0, v1.z⟩
      if speed > 1/10 then
        let drop := speed * cfg.airFriction * dt
        let newSpeed := max 0 (speed - drop)
        let scale := newSpeed / speed
        ⟨v1.x * scale, v1.y, v1.z * scale⟩
      else v1
    else v1

/-- PlayerController::ApplyMovement, returning the new velocity.  `fwd` and
`rgt` are the values of GetForwardXZ()/GetRightXZ() (unit horizontal vectors
derived from yaw in the source). -/
def applyMovement (sq : ℚ → ℚ) (fwd rgt : Vec3) (cfg : Config)
    (s : PlayerState) (dt : ℚ) : Vec3 :=
  let maxSpeed :=
    if s.isSprinting && s.isMoving then cfg.sprintSpeed
    else if s.isCrouching then cfg.crouchSpeed
    else cfg.walkSpeed
  let wishDirRaw := (Vec3.smul s.moveInput.z fwd).add (Vec3.smul s.moveInput.x rgt)
  let wishSpeed0 := lengthVia sq wishDirRaw
  let wishDir := if wishSpeed0 > 1/10000 then Vec3.smul (1 / wishSpeed0) wishDirRaw else Vec3.zero
  let wishSpeed := if wishSpeed0 > 1/10000 then (min wishSpeed0 1) * maxSpeed else 0
  if s.groundInfo.isGrounded then
    applyGroundAcceleration cfg wishDir wishSpeed dt
      (applyFriction sq cfg s.isMoving dt s.velocity)
  else
    applyAirAcceleration sq cfg wishDir wishSpeed dt s.velocity

/-- The movement pass of Update: replaces the velocity. -/
def movementStep (sq : ℚ → ℚ) (fwd rgt : Vec3) (cfg : Config)
    (s : PlayerState) (dt : ℚ) : PlayerState :=
  { s with velocity := applyMovement sq fwd rgt cfg s dt }

/-- The auto stair climbing block of Update (lines 76-110), with the stair
climb callback wired to WorldCollision::GetStairClimbHeight as in main.cpp.
m_autoClimbStairs is left at its default true and the callback is installed,
so the enabling flags reduce to grounded-and-moving. -/
def stairClimbStep (sq : ℚ → ℚ) (w : World) (cfg : Config) (s : PlayerState)
    (dt : ℚ) (newPosition : Vec3) : PlayerState × Vec3 :=
  if s.groundInfo.isGrounded && s.isMoving then
    let horizSpeed := sq (s.velocity.x * s.velocity.x + s.velocity.z * s.velocity.z)
    let moveDir : Vec3 :=
      if horizSpeed > 1/10 then ⟨s.velocity.x / horizSpeed, 0, s.velocity.z / horizSpeed⟩
      else Vec3.zero
    if lengthVia sq moveDir > 1/100 then
      let stairTop := w.getStairClimbHeight newPosition.x newPosition.z s.position.y
        cfg.capsuleRadius cfg.autoClimbStairHeight moveDir
      if stairTop > 0 ∧ stairTop > s.position.y then
        let heightDiff := stairTop - s.position.y
        let climbAmount := cfg.stairClimbSpeed * dt
        let newY := if climbAmount ≥ heightDiff then stairTop else s.position.y + climbAmount
        ({ s with groundInfo := { s.groundInfo with isGrounded := true },
                  velocity := { s.velocity with y := 0 } },
         { newPosition with y := newY })
      else (s, newPosition)
    else (s, newPosition)
  else (s, newPosition)

/-- The horizontal collision block of Update (lines 112-188), with the
collision callback wired to WorldCollision::CheckCollision with the
configured autoClimbStairHeight, as in main.cpp. -/
def horizontalStep (w : World) (cfg : Config) (s : PlayerState)
    (newPosition : Vec3) : PlayerState × Vec3 :=
  let stepOffset := cfg.stepHeight + 15/100
  let checkHeight := s.currentHeight - stepOffset
  if checkHeight > 1/10 then
    let checkCenter : Vec3 := ⟨newPosition.x, s.position.y + stepOffset + checkHeight * (1/2), newPosition.z⟩
    let checkExtents : Vec3 := ⟨cfg.capsuleRadius * (95/100), checkHeight * (1/2), cfg.capsuleRadius * (95/100)⟩
    let horizontalBounds := AABB.fromCenterExtents checkCenter checkExtents
    let blocked := w.checkCollision newPosition horizontalBounds cfg.autoClimbStairHeight
    if blocked then
      let xTestCenter : Vec3 := ⟨newPosition.x, s.position.y + stepOffset + checkHeight * (1/2), s.position.z⟩
      let xTestBounds := AABB.fromCenterExtents xTestCenter checkExtents
      let xBlocked := w.checkCollision ⟨newPosition.x, s.position.y, s.position.z⟩ xTestBounds cfg.autoClimbStairHeight
      let zTestCenter : Vec3 := ⟨s.position.x, s.position.y + stepOffset + checkHeight * (1/2), newPosition.z⟩
      let zTestBounds := AABB.fromCenterExtents zTestCenter checkExtents
      let zBlocked := w.checkCollision ⟨s.position.x, s.position.y, newPosition.z⟩ zTestBounds cfg.autoClimbStairHeight
      if xBlocked && zBlocked then
        ({ s with velocity := { s.velocity with x := 0, z := 0 } },
         { newPosition with x := s.position.x, z := s.position.z })
      else if xBlocked then
        ({ s with velocity := { s.velocity with x := 0 } },
         { newPosition with x := s.position.x })
      else if zBlocked then
        ({ s with velocity := { s.velocity with z := 0 } },
         { newPosition with z := s.position.z })
      else
        let xMove := |newPosition.x - s.position.x|
        let zMove := |newPosition.z - s.position.z|
        let (s1, np1) : PlayerState × Vec3 :=
          if xMove > zMove then
            ({ s with velocity := { s.velocity with z := 0 } },
             { newPosition with z := s.position.z })
          else
            ({ s with velocity := { s.velocity with x := 0 } },
             { newPosition with x := s.position.x })
        let finalCenter : Vec3 := ⟨np1.x, s.position.y + stepOffset + checkHeight * (1/2), np1.z⟩
        let finalBounds := AABB.fromCenterExtents finalCenter checkExtents
        if w.checkCollision np1 finalBounds cfg.autoClimbStairHeight then
          ({ s1 with velocity := { s1.velocity with x := 0, z := 0 } },
           { np1 with x := s.position.x, z := s.position.z })
        else (s1, np1)
    else (s, newPosition)
  else (s, newPosition)

/-- Everything of Update before the vertical collision section: jump,
gravity, movement, provisional integration, stair climb, horizontal
collision.  Returns the state (position still the pre-tick one) together
with the provisional new position. -/
def preVertical (sq : ℚ → ℚ) (fwd rgt : Vec3) (w : World) (cfg : Config)
    (s : PlayerState) (dt : ℚ) : PlayerState × Vec3 :=
  let s1 := jumpStep cfg s dt
  let s2 := gravityStep cfg s1 dt
  let s3 := movementStep sq fwd rgt cfg s2 dt
  let newPosition := s3.position.add (Vec3.smul dt s3.velocity)
  let r := stairClimbStep sq w cfg s3 dt newPosition
  horizontalStep w cfg r.1 r.2

/-- The ground height Update queries in its vertical collision section:
evaluated at the resolved XZ with the pre-tick Y as the search hint, through
the main.cpp wiring (radius 0.3). -/
def tickGroundHeight (w : World) (s : PlayerState) (newPosition : Vec3) : ℚ :=
  w.getGroundHeight newPosition.x newPosition.z (3/10) s.position.y

/-- The vertical collision / ground snap section of Update (lines 190-219),
including the commit of the new position. -/
def verticalStep (w : World) (cfg : Config) (s : PlayerState)
    (newPosition : Vec3) : PlayerState :=
  let groundHeight := tickGroundHeight w s newPosition
  if newPosition.y ≤ groundHeight then
    { s with
      position := ⟨newPosition.x, groundHeight, newPosition.z⟩,
      velocity := { s.velocity with y := if s.velocity.y < 0 then 0 else s.velocity.y },
      groundInfo := { s.groundInfo with
        isGrounded := true,
        groundPoint := ⟨newPosition.x, groundHeight, newPosition.z⟩,
        groundNormal := ⟨0, 1, 0⟩,
        groundDistance := 0 },
      isJumping := false,
      airJumpsRemaining := cfg.maxAirJumps }
  else
    let distToGround := newPosition.y - groundHeight
    if distToGround > cfg.groundCheckDistance then
      { s with position := newPosition,
               groundInfo := { s.groundInfo with isGrounded := false } }
    else
      { s with position := newPosition }

/-- The depenetration safety net of Update (lines 221-232), with the
depenetration callback wired to WorldCollision::GetPenetration as in
main.cpp. -/
def depenStep (w : World) (cfg : Config) (s : PlayerState) : PlayerState :=
  let currentBounds := playerAABB cfg s
  let r := w.getPenetration currentBounds cfg.autoClimbStairHeight
  if r.1 then
    { s with
      position := s.position.add r.2,
      velocity := { s.velocity with
        x := if r.2.x ≠ 0 then 0 else s.velocity.x,
        z := if r.2.z ≠ 0 then 0 else s.velocity.z } }
  else s

/-- PlayerController::UpdateCapsule (the part that feeds back into the
simulated state: m_currentHeight). -/
def updateCapsuleStep (cfg : Config) (s : PlayerState) : PlayerState :=
  { s with currentHeight := if s.isCrouching then cfg.capsuleHeight * (1/2) else cfg.capsuleHeight }

/-- PlayerController::Update, one tick, with all four query callbacks wired
to the world box store as installed in game/main.cpp. -/
def update (sq : ℚ → ℚ) (fwd rgt : Vec3) (w : World) (cfg : Config)
    (s : PlayerState) (dt : ℚ) : PlayerState :=
  let r := preVertical sq fwd rgt w cfg s dt
  updateCapsuleStep cfg (depenStep w cfg (verticalStep w cfg r.1 r.2))

/-- PlayerController::Reset. -/
def reset (cfg : Config) (s : PlayerState) : PlayerState :=
  { s with velocity := Vec3.zero, moveInput := Vec3.zero,
           isSprinting := false, isCrouching := false, isJumping := false,
           isMoving := false, wantsToJump := false,
           jumpCooldownTimer := 0, airJumpsRemaining := cfg.maxAirJumps,
           groundInfo := {} }

/-- PlayerController::SetMoveInput (clamps the XZ magnitude to 1). -/
def setMoveInput (sq : ℚ → ℚ) (s : PlayerState) (input : Vec3) : PlayerState :=
  let len := lengthVia sq ⟨input.x, 0, input.z⟩
  let clamped := if len > 1 then ⟨input.x / len, input.y, input.z / len⟩ else input
  { s with moveInput := clamped, isMoving := len > 1/100 }

/-- PlayerController::Jump (queues the edge-triggered request). -/
def jumpRequest (s : PlayerState) : PlayerState :=
  { s with wantsToJump := true }

/-- PlayerController::SetSprinting. -/
def setSprinting (s : PlayerState) (sprinting : Bool) : PlayerState :=
  { s with isSprinting := sprinting && !s.isCrouching }

/-- PlayerController::SetCrouching. -/
def setCrouching (s : PlayerState) (crouching : Bool) : PlayerState :=
  if crouching then { s with isCrouching := crouching, isSprinting := false }
  else { s with isCrouching := crouching }

/-- PlayerController::SetPosition (UpdateCapsule recomputes currentHeight). -/
def setPosition (cfg : Config) (s : PlayerState) (p : Vec3) : PlayerState :=
  updateCapsuleStep cfg { s with position := p }

/-- PlayerController::SetVelocity. -/
def setVelocity (s : PlayerState) (v : Vec3) : PlayerState :=
  { s with velocity := v }

/-- PlayerController::AddVelocity. -/
def addVelocity (s : PlayerState) (v : Vec3) : PlayerState :=
  { s with velocity := s.velocity.add v }

/-- PlayerController::CheckGroundCollision, with the ground height callback
wired as in main.cpp. -/
def checkGroundCollision (w : World) (cfg : Config) (s : PlayerState) : PlayerState :=
  let s := { s with groundInfo := {} }
  if s.isJumping && s.velocity.y > 0 then s
  else
    let groundHeight := w.getGroundHeight s.position.x s.position.z (3/10) s.position.y
    let distanceToGround := s.position.y - groundHeight
    let checkDist :=
      if s.velocity.y < 0 then max cfg.groundCheckDistance (|s.velocity.y| * (2/100))
      else cfg.groundCheckDistance
    if distanceToGround ≤ checkDist then
      let s := { s with groundInfo := { s.groundInfo with
        isGrounded := true,
        groundDistance := distanceToGround,
        groundPoint := ⟨s.position.x, groundHeight, s.position.z⟩,
        groundNormal := ⟨0, 1, 0⟩ } }
      if distanceToGround ≤ 0 then
        { s with position := { s.position with y := groundHeight },
                 velocity := { s.velocity with
                   y := if s.velocity.y < 0 then 0 else s.velocity.y } }
      else s
    else s

/-- PlayerController::Teleport. -/
def teleport (w : World) (cfg : Config) (s : PlayerState) (p : Vec3) : PlayerState :=
  checkGroundCollision w cfg
    (updateCapsuleStep cfg { s with position := p, velocity := Vec3.zero })

/-! ### Spec-side comparison definitions and derived quantities -/

/-- Modelled from the spec (section 4.1): ApplyFriction with the no-input
friction multiplier left as a parameter; the spec asserts the multiplier is
2, the source uses 2.5.  Identical to `applyFriction` except for `mult`. -/
def applyFrictionMult (mult : ℚ) (sq : ℚ → ℚ) (cfg : Config) (isMoving : Bool)
    (dt : ℚ) (v : Vec3) : Vec3 :=
  let vel : Vec3 := ⟨v.x, 0, v.z⟩
  let speed := lengthVia sq vel
  if speed < 1/10 then ⟨0, v.y, 0⟩
  else
    let friction := if !isMoving then cfg.groundFriction * mult else cfg.groundFriction
    let control := if speed < cfg.stopSpeed then cfg.stopSpeed else speed
    let drop := control * friction * dt
    let newSpeed := if speed - drop < 0 then 0 else speed - drop
    if speed > 0 then
      let scale := newSpeed / speed
      ⟨v.x * scale, v.y, v.z * scale⟩
    else v

/-- Modelled from the spec (section 4.5): the vertical collision section as
the spec describes it, querying ground height with the *higher* of the old
(pre-tick) and new (resolved) Y as the search hint.  Identical to
`verticalStep` except for the hint. -/
def verticalStepSpecC4 (w : World) (cfg : Config) (s : PlayerState)
    (newPosition : Vec3) : PlayerState :=
  let groundHeight := w.getGroundHeight newPosition.x newPosition.z (3/10)
    (max s.position.y newPosition.y)
  if newPosition.y ≤ groundHeight then
    { s with
      position := ⟨newPosition.x, groundHeight, newPosition.z⟩,
      velocity := { s.velocity with y := if s.velocity.y < 0 then 0 else s.velocity.y },
      groundInfo := { s.groundInfo with
        isGrounded := true,
        groundPoint := ⟨newPosition.x, groundHeight, newPosition.z⟩,
        groundNormal := ⟨0, 1, 0⟩,
        groundDistance := 0 },
      isJumping := false,
      airJumpsRemaining := cfg.maxAirJumps }
  else
    let distToGround := newPosition.y - groundHeight
    if distToGround > cfg.groundCheckDistance then
      { s with position := newPosition,
               groundInfo := { s.groundInfo with isGrounded := false } }
    else
      { s with position := newPosition }

/-- Modelled from the spec: Update with the vertical section replaced by the
spec's max-of-old-and-new-Y variant. -/
def updateSpecC4 (sq : ℚ → ℚ) (fwd rgt : Vec3) (w : World) (cfg : Config)
    (s : PlayerState) (dt : ℚ) : PlayerState :=
  let r := preVertical sq fwd rgt w cfg s dt
  updateCapsuleStep cfg (depenStep w cfg (verticalStepSpecC4 w cfg r.1 r.2))

/-- Squared horizontal speed |(v.x, v.z)|^2. -/
def horizSpeedSq (v : Vec3) : ℚ := v.x * v.x + v.z * v.z

/-- The current speed along the wish direction, as computed by the
acceleration functions. -/
def wishComp (wishDir v : Vec3) : ℚ := Vec3.dot ⟨v.x, 0, v.z⟩ wishDir

/-- The mutual-exclusion invariant of sprint and crouch. -/
def sprintCrouchExclusive (s : PlayerState) : Prop :=
  ¬(s.isSprinting = true ∧ s.isCrouching = true)

/-- `sq` agrees with the real square root at argument `q`. -/
def IsSqrtAt (sq : ℚ → ℚ) (q : ℚ) : Prop :=
  0 ≤ sq q ∧ sq q * sq q = q

/-! ### Concrete scenario data -/

/-- A square-root function adequate for runs in which every Length argument
is 0 (no move input, purely vertical motion). -/
def sq0 : ℚ → ℚ := fun _ => 0

/-- A square-root function adequate for runs whose Length arguments are
exactly 36 and 1 (horizontal speed 6 along an axis, unit wish direction). -/
def sq36 : ℚ → ℚ := fun q => if q = 36 then 6 else if q = 1 then 1 else 0

/-- A square-root function adequate for the friction-floor witness: the only
nonzero Length argument evaluated is 1/400. -/
def sqQuarter : ℚ → ℚ := fun q => if q = 1/400 then 1/20 else 0

/-- Flat solid ground: a single large solid box with its top at y = 0
(the spec's flat-ground landing scenario), floor baseline far below. -/
def wFlat : World := ⟨[⟨⟨0, -1/2, 0⟩, ⟨50, 1/2, 50⟩, true, BoxTag.default⟩], -100⟩

/-- Player spawned at (0, 5, 0) with zero velocity and no input. -/
def c2Start : PlayerState := { position := ⟨0, 5, 0⟩ }

/-- One tick of the flat-ground landing run: dt = 1/10 with the game
configuration and no input. -/
def c2Tick (s : PlayerState) : PlayerState :=
  update sq0 ⟨1, 0, 0⟩ ⟨0, 0, 1⟩ wFlat cfgGame s (1/10)

/-- The flat-ground landing run: repeated ticks from the spawn state. -/
def c2Run : ℕ → PlayerState
  | 0 => c2Start
  | n + 1 => c2Tick (c2Run n)

/-- The state the landing run settles into: at rest on the box top (y = 0),
grounded. -/
def c2Landed : PlayerState := { groundInfo := { isGrounded := true } }

/-- Two-box step-down world: box A with top 1.0 over x in [-1,0], box B with
top 0.9 over x in [0,1], both spanning z in [-5,5]. -/
def wC1 : World :=
  ⟨[⟨⟨-1/2, 1/2, 0⟩, ⟨1/2, 1/2, 5⟩, true, BoxTag.default⟩,
    ⟨⟨1/2, 45/100, 0⟩, ⟨1/2, 45/100, 5⟩, true, BoxTag.default⟩], -100⟩

/-- Grounded player standing exactly on the box-A/box-B seam at y = 1,
walking in +x at full speed. -/
def c1Start : PlayerState :=
  { position := ⟨1/10, 1, 0⟩, velocity := ⟨6, 0, 0⟩, moveInput := ⟨0, 0, 1⟩,
    isMoving := true, groundInfo := { isGrounded := true } }

/-- The end state of one tick from `c1Start`. -/
def c1End : PlayerState := update sq36 ⟨1, 0, 0⟩ ⟨0, 0, 1⟩ wC1 cfgGame c1Start (1/60)

/-- A single solid box with top 0.85 whose footprint (x in [0.05, 2.05])
overlaps the ground-query inset of the origin but not the origin itself. -/
def wC4 : World := ⟨[⟨⟨105/100, 425/1000, 0⟩, ⟨1, 425/1000, 1⟩, true, BoxTag.default⟩], -100⟩

/-- Player at y = 0.5 moving upward mid-jump (velocity.y = 6). -/
def c4Start : PlayerState :=
  { position := ⟨0, 1/2, 0⟩, velocity := ⟨0, 6, 0⟩, isJumping := true }

/-- One air-acceleration tick with constant full-forward input along +x at
the game configuration (wishSpeed = walkSpeed = 6), dt = 1/60. -/
def c3Tick (v : Vec3) : Vec3 :=
  applyAirAcceleration sq0 cfgGame ⟨1, 0, 0⟩ 6 (1/60) v

/-- A box is relevant to GetPenetration when it is solid, overlaps the query
bounds, and is not exempted as a climbable stair: exactly the boxes for
which the GetPenetration loop reaches its anyCollision assignment. -/
def penRelevant (bounds : AABB) (mc : ℚ) (b : WorldBox) : Bool :=
  b.isSolid && World.penOverlaps bounds b && !(World.penStairExempt bounds.lo.y mc b)

/-- A single solid box whose top (y = 1/20) is within 0.1 of the default
player state's feet (y = 0): the player stands on it while their bounds
still overlap it. -/
def wC10 : World := ⟨[⟨⟨0, 0, 0⟩, ⟨1, 1/20, 1⟩, true, BoxTag.default⟩], -100⟩

/-! ### Helper lemmas: which fields each tick step can touch -/

theorem vec_add_zero (v : Vec3) : v.add Vec3.zero = v := by
  cases v; simp [Vec3.add, Vec3.zero]

theorem jumpStep_untouched (cfg : Config) (s : PlayerState) (dt : ℚ) :
    (jumpStep cfg s dt).isSprinting = s.isSprinting ∧
    (jumpStep cfg s dt).isCrouching = s.isCrouching ∧
    (jumpStep cfg s dt).position = s.position := by
  unfold jumpStep
  dsimp only
  split_ifs <;> exact ⟨rfl, rfl, rfl⟩

theorem gravityStep_untouched (cfg : Config) (s : PlayerState) (dt : ℚ) :
    (gravityStep cfg s dt).isSprinting = s.isSprinting ∧
    (gravityStep cfg s dt).isCrouching = s.isCrouching ∧
    (gravityStep cfg s dt).position = s.position := by
  unfold gravityStep
  dsimp only
  split_ifs <;> exact ⟨rfl, rfl, rfl⟩

theorem movementStep_untouched (sq : ℚ → ℚ) (fwd rgt : Vec3) (cfg : Config)
    (s : PlayerState) (dt : ℚ) :
    (movementStep sq fwd rgt cfg s dt).isSprinting = s.isSprinting ∧
    (movementStep sq fwd rgt cfg s dt).isCrouching = s.isCrouching ∧
    (movementStep sq fwd rgt cfg s dt).position = s.position :=
  ⟨rfl, rfl, rfl⟩

theorem stairClimbStep_untouched (sq : ℚ → ℚ) (w : World) (cfg : Config)
    (s : PlayerState) (dt : ℚ) (np : Vec3) :
    (stairClimbStep sq w cfg s dt np).1.isSprinting = s.isSprinting ∧
    (stairClimbStep sq w cfg s dt np).1.isCrouching = s.isCrouching ∧
    (stairClimbStep sq w cfg s dt np).1.position = s.position := by
  unfold stairClimbStep
  dsimp only
  split_ifs <;> exact ⟨rfl, rfl, rfl⟩

theorem horizontalStep_untouched (w : World) (cfg : Config)
    (s : PlayerState) (np : Vec3) :
    (horizontalStep w cfg s np).1.isSprinting = s.isSprinting ∧
    (horizontalStep w cfg s np).1.isCrouching = s.isCrouching ∧
    (horizontalStep w cfg s np).1.position = s.position := by
  unfold horizontalStep
  dsimp only
  split_ifs <;> exact ⟨rfl, rfl, rfl⟩

theorem preVertical_untouched (sq : ℚ → ℚ) (fwd rgt : Vec3) (w : World)
    (cfg : Config) (s : PlayerState) (dt : ℚ) :
    (preVertical sq fwd rgt w cfg s dt).1.isSprinting = s.isSprinting ∧
    (preVertical sq fwd rgt w cfg s dt).1.isCrouching = s.isCrouching ∧
    (preVertical sq fwd rgt w cfg s dt).1.position = s.position := by
  unfold preVertical
  refine ⟨?_, ?_, ?_⟩
  · rw [(horizontalStep_untouched _ _ _ _).1, (stairClimbStep_untouched _ _ _ _ _ _).1,
        (movementStep_untouched _ _ _ _ _ _).1, (gravityStep_untouched _ _ _).1,
        (jumpStep_untouched _ _ _).1]
  · rw [(horizontalStep_untouched _ _ _ _).2.1, (stairClimbStep_untouched _ _ _ _ _ _).2.1,
        (movementStep_untouched _ _ _ _ _ _).2.1, (gravityStep_untouched _ _ _).2.1,
        (jumpStep_untouched _ _ _).2.1]
  · rw [(horizontalStep_untouched _ _ _ _).2.2, (stairClimbStep_untouched _ _ _ _ _ _).2.2,
        (movementStep_untouched _ _ _ _ _ _).2.2, (gravityStep_untouched _ _ _).2.2,
        (jumpStep_untouched _ _ _).2.2]

theorem penStep_pushOut_y (bounds : AABB) (bottom mc : ℚ) (acc : World.PenAcc)
    (b : WorldBox) (h : acc.pushOut.y = 0) :
    (World.penStep bounds bottom mc acc b).pushOut.y = 0 := by
  unfold World.penStep
  dsimp only
  split_ifs <;> first | exact h | rfl

theorem penFold_pushOut_y (bounds : AABB) (bottom mc : ℚ) (l : List WorldBox)
    (acc : World.PenAcc) (h : acc.pushOut.y = 0) :
    (l.foldl (World.penStep bounds bottom mc) acc).pushOut.y = 0 := by
  induction l generalizing acc with
  | nil => exact h
  | cons b t ih => exact ih _ (penStep_pushOut_y bounds bottom mc acc b h)

theorem getPenetration_pushOut_y (w : World) (bounds : AABB) (mc : ℚ) :
    (w.getPenetration bounds mc).2.y = 0 :=
  penFold_pushOut_y bounds bounds.lo.y mc w.boxes _ rfl

theorem depenStep_untouched (w : World) (cfg : Config) (s : PlayerState) :
    (depenStep w cfg s).isSprinting = s.isSprinting ∧
    (depenStep w cfg s).isCrouching = s.isCrouching ∧
    (depenStep w cfg s).groundInfo = s.groundInfo ∧
    (depenStep w cfg s).isJumping = s.isJumping ∧
    (depenStep w cfg s).airJumpsRemaining = s.airJumpsRemaining ∧
    (depenStep w cfg s).velocity.y = s.velocity.y ∧
    (depenStep w cfg s).position.y = s.position.y := by
  unfold depenStep
  dsimp only
  split_ifs <;>
    refine ⟨rfl, rfl, rfl, rfl, rfl, rfl, ?_⟩ <;>
    simp [Vec3.add, getPenetration_pushOut_y]

theorem verticalStep_untouched (w : World) (cfg : Config) (s : PlayerState) (np : Vec3) :
    (verticalStep w cfg s np).isSprinting = s.isSprinting ∧
    (verticalStep w cfg s np).isCrouching = s.isCrouching := by
  unfold verticalStep
  dsimp only
  split_ifs <;> exact ⟨rfl, rfl⟩

theorem updateCapsuleStep_untouched (cfg : Config) (s : PlayerState) :
    (updateCapsuleStep cfg s).isSprinting = s.isSprinting ∧
    (updateCapsuleStep cfg s).isCrouching = s.isCrouching ∧
    (updateCapsuleStep cfg s).position = s.position ∧
    (updateCapsuleStep cfg s).velocity = s.velocity ∧
    (updateCapsuleStep cfg s).groundInfo = s.groundInfo ∧
    (updateCapsuleStep cfg s).isJumping = s.isJumping ∧
    (updateCapsuleStep cfg s).airJumpsRemaining = s.airJumpsRemaining :=
  ⟨rfl, rfl, rfl, rfl, rfl, rfl, rfl⟩

theorem update_flags (sq : ℚ → ℚ) (fwd rgt : Vec3) (w : World) (cfg : Config)
    (s : PlayerState) (dt : ℚ) :
    (update sq fwd rgt w cfg s dt).isSprinting = s.isSprinting ∧
    (update sq fwd rgt w cfg s dt).isCrouching = s.isCrouching := by
  unfold update
  constructor
  · rw [(updateCapsuleStep_untouched _ _).1, (depenStep_untouched _ _ _).1,
        (verticalStep_untouched _ _ _ _).1, (preVertical_untouched _ _ _ _ _ _ _).1]
  · rw [(updateCapsuleStep_untouched _ _).2.1, (depenStep_untouched _ _ _).2.1,
        (verticalStep_untouched _ _ _ _).2, (preVertical_untouched _ _ _ _ _ _ _).2.1]

/-! ### C5: grounded friction multiplier with no input -/

/-- C5 counterexample: the claim says the no-input friction coefficient is
exactly double the configured ground friction; with the game configuration,
speed 1 along x and dt = 1/60, ApplyFriction disagrees with the doubled-
multiplier model (the source multiplies by 2.5, giving 11/16 instead of 3/4). -/
theorem c5_counterexample :
    applyFriction sq36 cfgGame false (1/60) ⟨1, 0, 0⟩ ≠
    applyFrictionMult 2 sq36 cfgGame false (1/60) ⟨1, 0, 0⟩ := by
  norm_num [applyFriction, applyFrictionMult, lengthVia, Vec3.lenSq, sq36, cfgGame,
    Vec3.mk.injEq]

/-- C5 (amended): in the grounded friction step with no active move input
the friction coefficient used for the speed drop is exactly 2.5 times the
configured ground friction (and the configured ground friction with active
input): ApplyFriction coincides with the multiplier-parameterised spec model
at multiplier 5/2, for every configuration, input flag, dt and velocity. -/
theorem c5_theorem (sq : ℚ → ℚ) (cfg : Config) (moving : Bool) (dt : ℚ) (v : Vec3) :
    applyFriction sq cfg moving dt v = applyFrictionMult (5/2) sq cfg moving dt v := by
  unfold applyFriction applyFrictionMult
  rfl

/-! ### C8: climbable stair boxes never block CheckCollision -/

/-- C8: a solid Stair-tagged box whose top is at most maxClimbHeight above
the query bounds' bottom never causes CheckCollision to report a block:
removing it from the box list leaves the result unchanged, wherever it sits
in the list and whatever its horizontal overlap with the query bounds. -/
theorem c8_theorem (fl : ℚ) (l1 l2 : List WorldBox) (pos : Vec3) (bounds : AABB)
    (mc : ℚ) (b : WorldBox) (htag : b.tag = BoxTag.stair) (hsolid : b.isSolid = true)
    (htop : b.getTop ≤ bounds.lo.y + mc) :
    World.checkCollision ⟨l1 ++ b :: l2, fl⟩ pos bounds mc =
    World.checkCollision ⟨l1 ++ l2, fl⟩ pos bounds mc := by
  unfold World.checkCollision
  dsimp only
  rw [List.any_append, List.any_append, List.any_cons]
  have hb : World.boxBlocks
      ⟨bounds.lo.add ⟨5/100, 2/100, 5/100⟩, bounds.hi.sub ⟨5/100, 2/100, 5/100⟩⟩
      (bounds.lo.add ⟨5/100, 2/100, 5/100⟩).y mc b = false := by
    unfold World.boxBlocks
    dsimp only
    have hbot : (bounds.lo.add ⟨5/100, 2/100, 5/100⟩).y = bounds.lo.y + 2/100 := rfl
    have htopeq : b.getAABB.hi.y = b.getTop := rfl
    have hstair : b.isStair = true := by
      unfold WorldBox.isStair
      rw [htag]; rfl
    rcases le_or_lt (b.getAABB.hi.y - (bounds.lo.add ⟨5/100, 2/100, 5/100⟩).y) 0 with hle | hgt
    · -- box top at or below the (shrunk) query bottom: the side-collision
      -- test playerBottom < boxTop - 0.6 fails
      have : ¬ ((bounds.lo.add ⟨5/100, 2/100, 5/100⟩).y < b.getAABB.hi.y - 6/10) := by
        intro hcon
        nlinarith [hcon, hle]
      simp [this]
    · -- box top within climb height above the query bottom: the stair
      -- exemption fires
      have hle2 : b.getAABB.hi.y - (bounds.lo.add ⟨5/100, 2/100, 5/100⟩).y ≤ mc := by
        rw [htopeq, hbot]
        nlinarith [htop]
      simp [hstair, hgt, hle2]
  rw [hb]
  simp

/-- C8 witness: a concrete stair box of top height 1 with the query bottom
at 0.6 and climb height 0.5; the box overlaps the bounds horizontally yet
does not block. -/
theorem c8_witness :
    World.checkCollision ⟨[⟨⟨0, 0, 0⟩, ⟨1, 1, 1⟩, true, BoxTag.stair⟩], 0⟩
      Vec3.zero ⟨⟨-1, 6/10, -1⟩, ⟨1, 2, 1⟩⟩ (1/2) =
    World.checkCollision ⟨[], 0⟩ Vec3.zero ⟨⟨-1, 6/10, -1⟩, ⟨1, 2, 1⟩⟩ (1/2) :=
  c8_theorem 0 [] [] Vec3.zero ⟨⟨-1, 6/10, -1⟩, ⟨1, 2, 1⟩⟩ (1/2)
    ⟨⟨0, 0, 0⟩, ⟨1, 1, 1⟩, true, BoxTag.stair⟩ rfl rfl (by norm_num [WorldBox.getTop])

/-! ### C9: sprint and crouch are mutually exclusive -/

/-- C9: the predicate not-(sprinting and crouching) is established by
SetSprinting and SetCrouching themselves (SetCrouching(true) clears sprint,
SetSprinting(true) while crouched stays false) and is preserved by every
other public operation of the controller, none of which sets either flag:
Update, Reset, Jump, SetMoveInput, SetPosition, SetVelocity, AddVelocity,
Teleport. -/
theorem c9_theorem :
    (∀ (s : PlayerState) (b : Bool), sprintCrouchExclusive (setSprinting s b)) ∧
    (∀ (s : PlayerState) (b : Bool), sprintCrouchExclusive (setCrouching s b)) ∧
    (∀ s : PlayerState, (setCrouching s true).isSprinting = false) ∧
    (∀ s : PlayerState, s.isCrouching = true → (setSprinting s true).isSprinting = false) ∧
    (∀ (sq : ℚ → ℚ) (fwd rgt : Vec3) (w : World) (cfg : Config) (s : PlayerState) (dt : ℚ),
      sprintCrouchExclusive s → sprintCrouchExclusive (update sq fwd rgt w cfg s dt)) ∧
    (∀ (cfg : Config) (s : PlayerState), sprintCrouchExclusive (reset cfg s)) ∧
    (∀ s : PlayerState, sprintCrouchExclusive s → sprintCrouchExclusive (jumpRequest s)) ∧
    (∀ (sq : ℚ → ℚ) (s : PlayerState) (i : Vec3),
      sprintCrouchExclusive s → sprintCrouchExclusive (setMoveInput sq s i)) ∧
    (∀ (cfg : Config) (s : PlayerState) (p : Vec3),
      sprintCrouchExclusive s → sprintCrouchExclusive (setPosition cfg s p)) ∧
    (∀ (s : PlayerState) (v : Vec3), sprintCrouchExclusive s → sprintCrouchExclusive (setVelocity s v)) ∧
    (∀ (s : PlayerState) (v : Vec3), sprintCrouchExclusive s → sprintCrouchExclusive (addVelocity s v)) ∧
    (∀ (w : World) (cfg : Config) (s : PlayerState) (p : Vec3),
      sprintCrouchExclusive s → sprintCrouchExclusive (teleport w cfg s p)) := by
  refine ⟨?_, ?_, ?_, ?_, ?_, ?_, ?_, ?_, ?_, ?_, ?_, ?_⟩
  · intro s b
    unfold sprintCrouchExclusive setSprinting
    rintro ⟨h1, h2⟩
    rw [h2] at h1
    simp at h1
  · intro s b
    unfold sprintCrouchExclusive setCrouching
    cases b <;> simp
  · intro s
    unfold setCrouching
    simp
  · intro s h
    unfold setSprinting
    rw [h]
    simp
  · intro sq fwd rgt w cfg s dt h
    unfold sprintCrouchExclusive
    rw [(update_flags sq fwd rgt w cfg s dt).1, (update_flags sq fwd rgt w cfg s dt).2]
    exact h
  · intro cfg s
    unfold sprintCrouchExclusive reset
    simp
  · intro s h
    exact h
  · intro sq s i h
    exact h
  · intro cfg s p h
    exact h
  · intro s v h
    exact h
  · intro s v h
    exact h
  · intro w cfg s p h
    unfold sprintCrouchExclusive teleport checkGroundCollision updateCapsuleStep
    dsimp only
    split_ifs <;> exact h

/-- C9 witness: the invariant concretely survives an Update tick from a
sprinting, non-crouching state. -/
theorem c9_witness :
    sprintCrouchExclusive
      (update sq0 ⟨1, 0, 0⟩ ⟨0, 0, 1⟩ wFlat cfgGame { c2Start with isSprinting := true } (1/10)) :=
  c9_theorem.2.2.2.2.1 sq0 ⟨1, 0, 0⟩ ⟨0, 0, 1⟩ wFlat cfgGame
    { c2Start with isSprinting := true } (1/10) (by simp [sprintCrouchExclusive, c2Start])

/-! ### C7: jump request gating -/

/-- C7: a pending jump request succeeds exactly when the decremented
cooldown timer has expired and the player is grounded or has air jumps left
(consuming one when airborne); on success velocity.y is set to jumpForce,
the cooldown restarts at jumpCooldown, isJumping is set and isGrounded is
forced false; on failure the velocity and air-jump count are untouched.
Consequently a second request issued within one cooldown window (dt2 <
jumpCooldown) leaves the velocity unchanged: exactly one impulse. -/
theorem c7_theorem :
    (∀ (cfg : Config) (s : PlayerState) (dt : ℚ),
      s.wantsToJump = true → cooldownAfter s dt ≤ 0 →
      (s.groundInfo.isGrounded = true ∨ 0 < s.airJumpsRemaining) →
        (jumpStep cfg s dt).velocity.y = cfg.jumpForce ∧
        (jumpStep cfg s dt).velocity.x = s.velocity.x ∧
        (jumpStep cfg s dt).velocity.z = s.velocity.z ∧
        (jumpStep cfg s dt).jumpCooldownTimer = cfg.jumpCooldown ∧
        (jumpStep cfg s dt).groundInfo.isGrounded = false ∧
        (jumpStep cfg s dt).isJumping = true ∧
        (jumpStep cfg s dt).airJumpsRemaining =
          (if s.groundInfo.isGrounded then s.airJumpsRemaining else s.airJumpsRemaining - 1) ∧
        (jumpStep cfg s dt).wantsToJump = false) ∧
    (∀ (cfg : Config) (s : PlayerState) (dt : ℚ),
      s.wantsToJump = true →
      ¬(cooldownAfter s dt ≤ 0 ∧ (s.groundInfo.isGrounded = true ∨ 0 < s.airJumpsRemaining)) →
        (jumpStep cfg s dt).velocity = s.velocity ∧
        (jumpStep cfg s dt).airJumpsRemaining = s.airJumpsRemaining ∧
        (jumpStep cfg s dt).isJumping = s.isJumping ∧
        (jumpStep cfg s dt).groundInfo = s.groundInfo ∧
        (jumpStep cfg s dt).jumpCooldownTimer = cooldownAfter s dt) ∧
    (∀ (cfg : Config) (s : PlayerState) (dt1 dt2 : ℚ),
      s.wantsToJump = true → cooldownAfter s dt1 ≤ 0 →
      (s.groundInfo.isGrounded = true ∨ 0 < s.airJumpsRemaining) →
      0 < cfg.jumpCooldown → dt2 < cfg.jumpCooldown →
        (jumpStep cfg (jumpRequest (jumpStep cfg s dt1)) dt2).velocity =
          (jumpStep cfg s dt1).velocity) := by
  have hsucc : ∀ (cfg : Config) (s : PlayerState) (dt : ℚ),
      s.wantsToJump = true → cooldownAfter s dt ≤ 0 →
      (s.groundInfo.isGrounded = true ∨ 0 < s.airJumpsRemaining) →
        jumpStep cfg s dt =
          { s with velocity := { s.velocity with y := cfg.jumpForce },
                   isJumping := true,
                   jumpCooldownTimer := cfg.jumpCooldown,
                   groundInfo := { s.groundInfo with isGrounded := false },
                   airJumpsRemaining :=
                     if s.groundInfo.isGrounded then s.airJumpsRemaining
                     else s.airJumpsRemaining - 1,
                   wantsToJump := false } := by
    intro cfg s dt hw hc hg
    unfold jumpStep
    rw [hw]
    dsimp only
    rw [if_pos rfl, if_pos hc]
    rcases hg with hg | hg
    · rw [if_pos hg, if_pos hg]
    · by_cases hgr : s.groundInfo.isGrounded = true
      · rw [if_pos hgr, if_pos hgr]
      · rw [if_neg hgr, if_pos hg, if_neg hgr]
  refine ⟨?_, ?_, ?_⟩
  · intro cfg s dt hw hc hg
    rw [hsucc cfg s dt hw hc hg]
    exact ⟨rfl, rfl, rfl, rfl, rfl, rfl, rfl, rfl⟩
  · intro cfg s dt hw hn
    unfold jumpStep
    rw [hw]
    dsimp only
    rw [if_pos rfl]
    rcases Classical.em (cooldownAfter s dt ≤ 0) with hc | hc
    · have hng : ¬(s.groundInfo.isGrounded = true ∨ 0 < s.airJumpsRemaining) :=
        fun hg => hn ⟨hc, hg⟩
      have hng1 : ¬ s.groundInfo.isGrounded = true := fun h => hng (Or.inl h)
      have hng2 : ¬ 0 < s.airJumpsRemaining := fun h => hng (Or.inr h)
      rw [if_pos hc, if_neg (by simpa using hng1), if_neg hng2]
      exact ⟨rfl, rfl, rfl, rfl, rfl⟩
    · rw [if_neg hc]
      exact ⟨rfl, rfl, rfl, rfl, rfl⟩
  · intro cfg s dt1 dt2 hw hc hg hcd hdt2
    rw [hsucc cfg s dt1 hw hc hg]
    unfold jumpRequest jumpStep cooldownAfter
    dsimp only
    rw [if_pos hcd]
    have : ¬ cfg.jumpCooldown - dt2 ≤ 0 := by linarith
    rw [if_neg this, if_pos rfl]

/-- C7 witness: from a grounded state with a pending request and expired
cooldown, the jump fires (velocity.y = 8, cooldown = 1/10, ungrounded), and
a second request 1/60 s later, still inside the cooldown window, leaves the
velocity untouched. -/
theorem c7_witness :
    ((jumpStep cfgGame { c2Landed with wantsToJump := true } (1/60)).velocity.y = cfgGame.jumpForce ∧
     (jumpStep cfgGame { c2Landed with wantsToJump := true } (1/60)).jumpCooldownTimer = cfgGame.jumpCooldown ∧
     (jumpStep cfgGame { c2Landed with wantsToJump := true } (1/60)).groundInfo.isGrounded = false) ∧
    (jumpStep cfgGame
        (jumpRequest (jumpStep cfgGame { c2Landed with wantsToJump := true } (1/60))) (1/60)).velocity =
      (jumpStep cfgGame { c2Landed with wantsToJump := true } (1/60)).velocity := by
  constructor
  · have h := c7_theorem.1 cfgGame { c2Landed with wantsToJump := true } (1/60) rfl
      (by norm_num [cooldownAfter, c2Landed]) (Or.inl rfl)
    exact ⟨h.1, h.2.2.2.1, h.2.2.2.2.1⟩
  · exact c7_theorem.2.2 cfgGame { c2Landed with wantsToJump := true } (1/60) (1/60) rfl
      (by norm_num [cooldownAfter, c2Landed]) (Or.inl rfl)
      (by norm_num [cfgGame]) (by norm_num [cfgGame])

/-! ### C6: friction floor -/

/-- C6: for every grounded tick with no move input, if the horizontal speed
at the start of the movement step is below 0.1 (equivalently its square is
below 1/100, with sq faithful to the square root at the evaluated argument),
then after the tick's movement model both horizontal velocity components are
exactly zero. -/
theorem c6_theorem (sq : ℚ → ℚ) (fwd rgt : Vec3) (cfg : Config) (s : PlayerState) (dt : ℚ)
    (hg : s.groundInfo.isGrounded = true) (hin : s.moveInput = Vec3.zero)
    (hsq : IsSqrtAt sq (Vec3.lenSq ⟨s.velocity.x, 0, s.velocity.z⟩))
    (hlt : horizSpeedSq s.velocity < 1/100) :
    (movementStep sq fwd rgt cfg s dt).velocity.x = 0 ∧
    (movementStep sq fwd rgt cfg s dt).velocity.z = 0 := by
  have hspeed : lengthVia sq ⟨s.velocity.x, 0, s.velocity.z⟩ < 1/10 := by
    rcases hsq with ⟨h0, h1⟩
    have hA : Vec3.lenSq ⟨s.velocity.x, 0, s.velocity.z⟩ = horizSpeedSq s.velocity := by
      simp [Vec3.lenSq, horizSpeedSq]
    unfold lengthVia
    nlinarith [h0, h1, hlt, hA]
  have hfr : applyFriction sq cfg s.isMoving dt s.velocity = ⟨0, s.velocity.y, 0⟩ := by
    unfold applyFriction
    dsimp only
    rw [if_pos hspeed]
  have hraw : (Vec3.smul (Vec3.zero.z) fwd).add (Vec3.smul (Vec3.zero.x) rgt) = Vec3.zero := by
    simp [Vec3.smul, Vec3.add, Vec3.zero]
  unfold movementStep applyMovement
  dsimp only
  rw [hg, if_pos rfl, hin, hraw, hfr]
  constructor <;>
    · unfold applyGroundAcceleration
      dsimp only
      split_ifs <;> simp [Vec3.dot, Vec3.smul, Vec3.zero]

/-- C6 witness: a grounded player with horizontal velocity (0.03, 0.04), of
speed 0.05 < 0.1, comes to an exact horizontal stop in one movement step. -/
theorem c6_witness :
    (movementStep sqQuarter ⟨1, 0, 0⟩ ⟨0, 0, 1⟩ cfgGame
      { velocity := ⟨3/100, 5, 4/100⟩, groundInfo := { isGrounded := true } } (1/60)).velocity.x = 0 ∧
    (movementStep sqQuarter ⟨1, 0, 0⟩ ⟨0, 0, 1⟩ cfgGame
      { velocity := ⟨3/100, 5, 4/100⟩, groundInfo := { isGrounded := true } } (1/60)).velocity.z = 0 :=
  c6_theorem sqQuarter ⟨1, 0, 0⟩ ⟨0, 0, 1⟩ cfgGame
    { velocity := ⟨3/100, 5, 4/100⟩, groundInfo := { isGrounded := true } } (1/60)
    rfl rfl (by norm_num [IsSqrtAt, sqQuarter, Vec3.lenSq]) (by norm_num [horizSpeedSq])

/-! ### C10: GetPenetration can report an overlap with a zero push-out -/

theorem tagDefaultNeStair : (BoxTag.default = BoxTag.stair) = False :=
  eq_false (by decide)

theorem penStep_of_standing (bounds : AABB) (mc : ℚ) (acc : World.PenAcc) (b : WorldBox)
    (hst : penRelevant bounds mc b = true → bounds.lo.y ≥ b.getAABB.hi.y - 1/10) :
    World.penStep bounds bounds.lo.y mc acc b =
      (if penRelevant bounds mc b then { acc with anyCollision := true } else acc) := by
  unfold World.penStep penRelevant
  dsimp only
  by_cases hs : b.isSolid = true
  case neg =>
    rw [if_pos (by simp [hs]), if_neg (by simp [hs])]
  case pos =>
    rw [if_neg (by simp [hs])]
    by_cases ho : World.penOverlaps bounds b = true
    case neg =>
      rw [if_pos (by simp [ho]), if_neg (by simp [hs, ho])]
    case pos =>
      rw [if_neg (by simp [ho])]
      by_cases he : World.penStairExempt bounds.lo.y mc b = true
      case pos =>
        rw [if_pos he, if_neg (by simp [hs, ho, he])]
      case neg =>
        rw [if_neg he]
        have hrel : penRelevant bounds mc b = true := by
          unfold penRelevant
          simp [hs, ho, he]
        rw [if_pos (hst hrel), if_pos (by simp [hs, ho, he])]

theorem penFold_of_standing (bounds : AABB) (mc : ℚ) (l : List WorldBox) (acc : World.PenAcc)
    (hst : ∀ b ∈ l, penRelevant bounds mc b = true → bounds.lo.y ≥ b.getAABB.hi.y - 1/10) :
    l.foldl (World.penStep bounds bounds.lo.y mc) acc =
      { acc with anyCollision := acc.anyCollision || l.any (penRelevant bounds mc) } := by
  induction l generalizing acc with
  | nil => simp
  | cons b t ih =>
    rw [List.foldl_cons, penStep_of_standing bounds mc acc b (hst b (List.mem_cons_self b t))]
    by_cases hb : penRelevant bounds mc b = true
    · rw [if_pos hb, ih _ (fun c hc => hst c (List.mem_cons_of_mem b hc))]
      simp [hb]
    · rw [if_neg hb, ih _ (fun c hc => hst c (List.mem_cons_of_mem b hc))]
      have hb2 : penRelevant bounds mc b = false := by simpa using hb
      simp [hb2]

/-- C10: when every solid, overlapping, non-stair-exempt box is one the
player is standing on top of (bounds bottom within 0.1 of its top) and at
least one such box exists, GetPenetration returns true with pushOut (0,0,0),
and the depenetration consumer in Update adds a zero displacement and zeroes
no velocity component: the state is unchanged. -/
theorem c10_theorem (w : World) (cfg : Config) (s : PlayerState)
    (hst : ∀ b ∈ w.boxes,
      penRelevant (playerAABB cfg s) cfg.autoClimbStairHeight b = true →
      (playerAABB cfg s).lo.y ≥ b.getAABB.hi.y - 1/10)
    (hex : ∃ b ∈ w.boxes, penRelevant (playerAABB cfg s) cfg.autoClimbStairHeight b = true) :
    w.getPenetration (playerAABB cfg s) cfg.autoClimbStairHeight = (true, Vec3.zero) ∧
    depenStep w cfg s = s := by
  have hpen : w.getPenetration (playerAABB cfg s) cfg.autoClimbStairHeight = (true, Vec3.zero) := by
    unfold World.getPenetration
    dsimp only
    rw [penFold_of_standing _ _ _ _ hst]
    rcases hex with ⟨b, hb, hrel⟩
    have : w.boxes.any (penRelevant (playerAABB cfg s) cfg.autoClimbStairHeight) = true :=
      List.any_eq_true.mpr ⟨b, hb, hrel⟩
    rw [this]
    rfl
  refine ⟨hpen, ?_⟩
  unfold depenStep
  dsimp only
  rw [hpen]
  dsimp only
  rw [if_pos rfl]
  have hx : ¬ (Vec3.zero.x ≠ 0) := by simp [Vec3.zero]
  have hz : ¬ (Vec3.zero.z ≠ 0) := by simp [Vec3.zero]
  rw [if_neg hx, if_neg hz, vec_add_zero]

/-- C10 witness: the default-placed player stands on a box with top 1/20;
the overlap is reported with a zero push-out and the tick's depenetration
step is the identity. -/
theorem c10_witness :
    wC10.getPenetration (playerAABB cfgGame {}) cfgGame.autoClimbStairHeight = (true, Vec3.zero) ∧
    depenStep wC10 cfgGame {} = {} :=
  c10_theorem wC10 cfgGame {}
    (by
      intro b hb hrel
      simp only [wC10, List.mem_singleton] at hb
      subst hb
      norm_num [playerAABB, AABB.fromCenterExtents, WorldBox.getAABB, Vec3.add, Vec3.sub,
        cfgGame, Vec3.zero])
    (⟨⟨⟨0, 0, 0⟩, ⟨1, 1/20, 1⟩, true, BoxTag.default⟩, by simp [wC10],
      by norm_num [penRelevant, World.penOverlaps, World.penStairExempt, WorldBox.getAABB,
        WorldBox.isStair, Vec3.sub, Vec3.add, playerAABB, AABB.fromCenterExtents, cfgGame,
        tagDefaultNeStair, Vec3.zero]⟩)

/-! ### C3: air acceleration and the air speed cap -/

theorem c3Tick_z (v : Vec3) : (c3Tick v).z = v.z := by
  unfold c3Tick applyAirAcceleration
  dsimp only
  split_ifs <;> first
    | exact absurd ‹cfgGame.airFriction > 0› (by norm_num [cfgGame])
    | simp

theorem c3IterZ (n : ℕ) : (c3Tick^[n] ⟨0, 0, 6⟩).z = 6 := by
  induction n with
  | zero => rfl
  | succ n ih => rw [Function.iterate_succ_apply', c3Tick_z, ih]

/-- C3 counterexample: with the game configuration, constant full-speed
input along +x and an initial horizontal velocity of 6 perpendicular to the
wish direction, the horizontal speed never converges to at most
airSpeedCap * walkSpeed = 4.2: the perpendicular component is preserved by
every air-acceleration tick, so the squared speed stays at least 36 > 4.2^2
forever. -/
theorem c3_counterexample :
    ¬ ∃ N : ℕ, ∀ n : ℕ, N ≤ n →
      horizSpeedSq (c3Tick^[n] ⟨0, 0, 6⟩) ≤
        (cfgGame.airSpeedCap * cfgGame.walkSpeed) * (cfgGame.airSpeedCap * cfgGame.walkSpeed) := by
  rintro ⟨N, hN⟩
  have h := hN N le_rfl
  have hz := c3IterZ N
  have hcap : (cfgGame.airSpeedCap * cfgGame.walkSpeed) * (cfgGame.airSpeedCap * cfgGame.walkSpeed)
      = 441/25 := by norm_num [cfgGame]
  unfold horizSpeedSq at h
  rw [hz, hcap] at h
  nlinarith [mul_self_nonneg (c3Tick^[N] (⟨0, 0, 6⟩ : Vec3)).x, h]

theorem airAccel_cases (sq : ℚ → ℚ) (cfg : Config) (d v : Vec3) (ws dt : ℚ)
    (hf : cfg.airFriction = 0) :
    (applyAirAcceleration sq cfg d ws dt v = v ∧
      min ws (cfg.airSpeedCap * cfg.walkSpeed) - wishComp d v ≤ 0) ∨
    (∃ a : ℚ,
      applyAirAcceleration sq cfg d ws dt v = ⟨v.x + a * d.x, v.y, v.z + a * d.z⟩ ∧
      0 < min ws (cfg.airSpeedCap * cfg.walkSpeed) - wishComp d v ∧
      a = min (cfg.airAccelerate * dt * ws)
        (min ws (cfg.airSpeedCap * cfg.walkSpeed) - wishComp d v)) := by
  unfold applyAirAcceleration wishComp
  dsimp only
  by_cases h : min ws (cfg.airSpeedCap * cfg.walkSpeed) - Vec3.dot ⟨v.x, 0, v.z⟩ d ≤ 0
  · rw [if_pos h]
    exact Or.inl ⟨rfl, h⟩
  · rw [if_neg h]
    have hf2 : ¬ (cfg.airFriction > 0) := by rw [hf]; norm_num
    rw [if_neg hf2]
    refine Or.inr ⟨_, rfl, by linarith [lt_of_not_le h], ?_⟩
    rcases le_or_lt (cfg.airAccelerate * dt * ws)
        (min ws (cfg.airSpeedCap * cfg.walkSpeed) - Vec3.dot ⟨v.x, 0, v.z⟩ d) with hle | hlt
    · rw [if_neg (not_lt.mpr hle), min_eq_left hle]
    · rw [if_pos hlt, min_eq_right (le_of_lt hlt)]

/-- C3 (amended): for a unit wish direction the air-acceleration step adds
nothing when the velocity component along wishDir is already at or above
airSpeedCap * walkSpeed; with airFriction = 0 it never raises that component
above max(previous component, cap), and when the uncapped accel magnitude
airAccelerate * dt * wishSpeed fits below the capped target the component
grows by exactly that uncapped magnitude.  Consequently, for an initial
horizontal velocity parallel to the (horizontal) wish direction with
nonnegative component c0, after any number of ticks the squared horizontal
speed stays at most max(c0, cap)^2.  (The unconditional convergence of
horizontal speed to at most the cap claimed by the spec fails when the
initial velocity has a component perpendicular to wishDir, which air
acceleration never reduces; see the counterexample.) -/
theorem c3_theorem :
    (∀ (sq : ℚ → ℚ) (cfg : Config) (d v : Vec3) (ws dt : ℚ),
      d.x * d.x + d.z * d.z = 1 →
      (cfg.airSpeedCap * cfg.walkSpeed ≤ wishComp d v →
        applyAirAcceleration sq cfg d ws dt v = v) ∧
      (cfg.airFriction = 0 →
        wishComp d (applyAirAcceleration sq cfg d ws dt v) ≤
          max (wishComp d v) (cfg.airSpeedCap * cfg.walkSpeed)) ∧
      (cfg.airFriction = 0 →
        0 < min ws (cfg.airSpeedCap * cfg.walkSpeed) - wishComp d v →
        cfg.airAccelerate * dt * ws ≤ min ws (cfg.airSpeedCap * cfg.walkSpeed) - wishComp d v →
        wishComp d (applyAirAcceleration sq cfg d ws dt v) =
          wishComp d v + cfg.airAccelerate * dt * ws)) ∧
    (∀ (sq : ℚ → ℚ) (cfg : Config) (d : Vec3) (ws dt c0 : ℚ) (n : ℕ),
      d.y = 0 → d.x * d.x + d.z * d.z = 1 → cfg.airFriction = 0 →
      0 ≤ dt → 0 ≤ cfg.airAccelerate → 0 ≤ ws → 0 ≤ c0 →
      horizSpeedSq ((applyAirAcceleration sq cfg d ws dt)^[n] (Vec3.smul c0 d)) ≤
        max c0 (cfg.airSpeedCap * cfg.walkSpeed) * max c0 (cfg.airSpeedCap * cfg.walkSpeed)) := by
  have hcomp : ∀ (d v : Vec3) (a : ℚ),
      wishComp d ⟨v.x + a * d.x, v.y, v.z + a * d.z⟩ =
        wishComp d v + a * (d.x * d.x + d.z * d.z) := by
    intro d v a
    unfold wishComp Vec3.dot
    ring
  constructor
  · intro sq cfg d v ws dt hunit
    refine ⟨?_, ?_, ?_⟩
    · intro hc
      unfold applyAirAcceleration wishComp at *
      dsimp only
      rw [if_pos (by linarith [min_le_right ws (cfg.airSpeedCap * cfg.walkSpeed)])]
    · intro hf
      rcases airAccel_cases sq cfg d v ws dt hf with ⟨heq, _⟩ | ⟨a, heq, hpos, ha⟩
      · rw [heq]
        exact le_max_left _ _
      · rw [heq, hcomp d v a, hunit, mul_one]
        have h1 : a ≤ min ws (cfg.airSpeedCap * cfg.walkSpeed) - wishComp d v := by
          rw [ha]
          exact min_le_right _ _
        have h2 : min ws (cfg.airSpeedCap * cfg.walkSpeed) ≤ cfg.airSpeedCap * cfg.walkSpeed :=
          min_le_right _ _
        have := le_max_right (wishComp d v) (cfg.airSpeedCap * cfg.walkSpeed)
        linarith
    · intro hf hpos hacc
      rcases airAccel_cases sq cfg d v ws dt hf with ⟨heq, hle⟩ | ⟨a, heq, _, ha⟩
      · linarith
      · rw [heq, hcomp d v a, hunit, mul_one, ha, min_eq_left hacc]
  · intro sq cfg d ws dt c0 n hy hunit hf hdt hacc hws hc0
    have key : ∀ m : ℕ, ∃ c : ℚ,
        (applyAirAcceleration sq cfg d ws dt)^[m] (Vec3.smul c0 d) = Vec3.smul c d ∧
        0 ≤ c ∧ c ≤ max c0 (cfg.airSpeedCap * cfg.walkSpeed) := by
      intro m
      induction m with
      | zero => exact ⟨c0, rfl, hc0, le_max_left _ _⟩
      | succ m ih =>
        obtain ⟨c, hv, hc, hle⟩ := ih
        rw [Function.iterate_succ_apply', hv]
        have hwc : wishComp d (Vec3.smul c d) = c := by
          unfold wishComp Vec3.dot Vec3.smul
          dsimp only
          rw [hy]
          nlinarith [hunit]
        rcases airAccel_cases sq cfg d (Vec3.smul c d) ws dt hf with ⟨heq, _⟩ | ⟨a, heq, hpos, ha⟩
        · exact ⟨c, by rw [heq], hc, hle⟩
        · rw [hwc] at hpos ha
          have ha0 : 0 ≤ a := by
            rw [ha]
            exact le_min (by positivity) (le_of_lt hpos)
          have hale : a ≤ min ws (cfg.airSpeedCap * cfg.walkSpeed) - c := by
            rw [ha]
            exact min_le_right _ _
          refine ⟨c + a, ?_, by linarith, ?_⟩
          · rw [heq]
            unfold Vec3.smul
            dsimp only
            rw [hy]
            simp only [Vec3.mk.injEq]
            refine ⟨by ring, by ring, by ring⟩
          · have h2 : min ws (cfg.airSpeedCap * cfg.walkSpeed) ≤ cfg.airSpeedCap * cfg.walkSpeed :=
              min_le_right _ _
            have := le_max_right c0 (cfg.airSpeedCap * cfg.walkSpeed)
            linarith
    obtain ⟨c, hv, hc, hle⟩ := key n
    rw [hv]
    unfold horizSpeedSq Vec3.smul
    dsimp only
    calc c * d.x * (c * d.x) + c * d.z * (c * d.z)
        = c * c * (d.x * d.x + d.z * d.z) := by ring
      _ = c * c := by rw [hunit, mul_one]
      _ ≤ max c0 (cfg.airSpeedCap * cfg.walkSpeed) * max c0 (cfg.airSpeedCap * cfg.walkSpeed) :=
          mul_self_le_mul_self hc hle

/-- C3 witness: one tick from rest along +x stays below the cap bound, and
four ticks from rest keep the squared horizontal speed at most 4.2^2. -/
theorem c3_witness :
    wishComp ⟨1, 0, 0⟩ (applyAirAcceleration sq0 cfgGame ⟨1, 0, 0⟩ 6 (1/60) ⟨0, 0, 6⟩) ≤
      max (wishComp ⟨1, 0, 0⟩ ⟨0, 0, 6⟩) (cfgGame.airSpeedCap * cfgGame.walkSpeed) ∧
    horizSpeedSq ((applyAirAcceleration sq0 cfgGame ⟨1, 0, 0⟩ 6 (1/60))^[4] (Vec3.smul 0 ⟨1, 0, 0⟩)) ≤
      max 0 (cfgGame.airSpeedCap * cfgGame.walkSpeed) * max 0 (cfgGame.airSpeedCap * cfgGame.walkSpeed) :=
  ⟨(c3_theorem.1 sq0 cfgGame ⟨1, 0, 0⟩ ⟨0, 0, 6⟩ 6 (1/60) (by norm_num)).2.1 rfl,
   c3_theorem.2 sq0 cfgGame ⟨1, 0, 0⟩ 6 (1/60) 0 4 rfl (by norm_num) rfl
     (by norm_num) (by norm_num [cfgGame]) (by norm_num) le_rfl⟩

/-! ### C1, C2, C4: the vertical collision section of the tick -/

theorem snapCase_props (sq : ℚ → ℚ) (fwd rgt : Vec3) (w : World) (cfg : Config)
    (s : PlayerState) (dt : ℚ)
    (hle : (preVertical sq fwd rgt w cfg s dt).2.y ≤
      tickGroundHeight w (preVertical sq fwd rgt w cfg s dt).1 (preVertical sq fwd rgt w cfg s dt).2) :
    (update sq fwd rgt w cfg s dt).position.y =
      tickGroundHeight w (preVertical sq fwd rgt w cfg s dt).1 (preVertical sq fwd rgt w cfg s dt).2 ∧
    (update sq fwd rgt w cfg s dt).velocity.y =
      (if (preVertical sq fwd rgt w cfg s dt).1.velocity.y < 0 then 0
       else (preVertical sq fwd rgt w cfg s dt).1.velocity.y) ∧
    (update sq fwd rgt w cfg s dt).groundInfo.isGrounded = true ∧
    (update sq fwd rgt w cfg s dt).isJumping = false ∧
    (update sq fwd rgt w cfg s dt).airJumpsRemaining = cfg.maxAirJumps := by
  unfold update
  dsimp only
  have hvs : verticalStep w cfg (preVertical sq fwd rgt w cfg s dt).1
      (preVertical sq fwd rgt w cfg s dt).2 =
      { (preVertical sq fwd rgt w cfg s dt).1 with
        position := ⟨(preVertical sq fwd rgt w cfg s dt).2.x,
          tickGroundHeight w (preVertical sq fwd rgt w cfg s dt).1 (preVertical sq fwd rgt w cfg s dt).2,
          (preVertical sq fwd rgt w cfg s dt).2.z⟩,
        velocity := { (preVertical sq fwd rgt w cfg s dt).1.velocity with
          y := if (preVertical sq fwd rgt w cfg s dt).1.velocity.y < 0 then 0
               else (preVertical sq fwd rgt w cfg s dt).1.velocity.y },
        groundInfo := { (preVertical sq fwd rgt w cfg s dt).1.groundInfo with
          isGrounded := true,
          groundPoint := ⟨(preVertical sq fwd rgt w cfg s dt).2.x,
            tickGroundHeight w (preVertical sq fwd rgt w cfg s dt).1 (preVertical sq fwd rgt w cfg s dt).2,
            (preVertical sq fwd rgt w cfg s dt).2.z⟩,
          groundNormal := ⟨0, 1, 0⟩,
          groundDistance := 0 },
        isJumping := false,
        airJumpsRemaining := cfg.maxAirJumps } := by
    unfold verticalStep
    dsimp only
    rw [if_pos hle]
  rw [hvs]
  refine ⟨?_, ?_, ?_, ?_, ?_⟩
  · rw [(updateCapsuleStep_untouched _ _).2.2.1, (depenStep_untouched _ _ _).2.2.2.2.2.2]
  · rw [(updateCapsuleStep_untouched _ _).2.2.2.1, (depenStep_untouched _ _ _).2.2.2.2.2.1]
  · rw [(updateCapsuleStep_untouched _ _).2.2.2.2.1, (depenStep_untouched _ _ _).2.2.1]
  · rw [(updateCapsuleStep_untouched _ _).2.2.2.2.2.1, (depenStep_untouched _ _ _).2.2.2.1]
  · rw [(updateCapsuleStep_untouched _ _).2.2.2.2.2.2, (depenStep_untouched _ _ _).2.2.2.2.1]

theorem airCase_posy (sq : ℚ → ℚ) (fwd rgt : Vec3) (w : World) (cfg : Config)
    (s : PlayerState) (dt : ℚ)
    (hgt : ¬ (preVertical sq fwd rgt w cfg s dt).2.y ≤
      tickGroundHeight w (preVertical sq fwd rgt w cfg s dt).1 (preVertical sq fwd rgt w cfg s dt).2) :
    (update sq fwd rgt w cfg s dt).position.y = (preVertical sq fwd rgt w cfg s dt).2.y := by
  unfold update
  dsimp only
  have hvs : (verticalStep w cfg (preVertical sq fwd rgt w cfg s dt).1
      (preVertical sq fwd rgt w cfg s dt).2).position.y =
      (preVertical sq fwd rgt w cfg s dt).2.y := by
    unfold verticalStep
    dsimp only
    rw [if_neg hgt]
    split_ifs <;> rfl
  rw [(updateCapsuleStep_untouched _ _).2.2.1, (depenStep_untouched _ _ _).2.2.2.2.2.2, hvs]

/-- C1 (amended): at the end of every tick, position.y is at least the
ground height the tick queried (at the post-horizontal-resolution XZ with
the pre-tick Y as search hint, the depenetration step never changing
position.y), and equals it whenever the snap branch was taken (provisional
Y at or below that height).  isGrounded = true at the end of a tick does
not force equality: grounded status persists while the vertical gap is
within groundCheckDistance, as the counterexample shows. -/
theorem c1_theorem (sq : ℚ → ℚ) (fwd rgt : Vec3) (w : World) (cfg : Config)
    (s : PlayerState) (dt : ℚ) :
    tickGroundHeight w (preVertical sq fwd rgt w cfg s dt).1 (preVertical sq fwd rgt w cfg s dt).2 ≤
      (update sq fwd rgt w cfg s dt).position.y ∧
    ((preVertical sq fwd rgt w cfg s dt).2.y ≤
      tickGroundHeight w (preVertical sq fwd rgt w cfg s dt).1 (preVertical sq fwd rgt w cfg s dt).2 →
      (update sq fwd rgt w cfg s dt).position.y =
        tickGroundHeight w (preVertical sq fwd rgt w cfg s dt).1 (preVertical sq fwd rgt w cfg s dt).2) := by
  by_cases hle : (preVertical sq fwd rgt w cfg s dt).2.y ≤
      tickGroundHeight w (preVertical sq fwd rgt w cfg s dt).1 (preVertical sq fwd rgt w cfg s dt).2
  · have h := (snapCase_props sq fwd rgt w cfg s dt hle).1
    exact ⟨le_of_eq h.symm, fun _ => h⟩
  · have h := airCase_posy sq fwd rgt w cfg s dt hle
    constructor
    · rw [h]
      exact le_of_lt (lt_of_not_le hle)
    · intro hc
      exact absurd hc hle

/-- C1 counterexample: a grounded player standing exactly at the ground
height (top of box A, y = 1) walks over a step-down edge onto box B (top
0.9); the tick ends with isGrounded = true (the 0.1 gap is within
groundCheckDistance = 0.15) but position.y = 1 differs from the ground
height 0.9 computed for the tick's final XZ. -/
theorem c1_counterexample :
    c1Start.position.y =
      wC1.getGroundHeight c1Start.position.x c1Start.position.z (3/10) c1Start.position.y ∧
    c1Start.groundInfo.isGrounded = true ∧
    c1End.groundInfo.isGrounded = true ∧
    c1End.position.y ≠
      wC1.getGroundHeight c1End.position.x c1End.position.z (3/10) c1End.position.y := by
  norm_num [c1End, c1Start, update, preVertical, jumpStep, cooldownAfter, gravityStep,
    movementStep, applyMovement, applyFriction, applyGroundAcceleration,
    applyAirAcceleration, lengthVia, Vec3.lenSq, Vec3.dot, Vec3.add, Vec3.sub, Vec3.smul,
    stairClimbStep, horizontalStep, verticalStep, tickGroundHeight, World.getGroundHeight,
    World.groundStepBest, World.getStairClimbHeight, World.stairStepBest,
    World.checkCollision, World.boxBlocks, AABB.intersects, AABB.fromCenterExtents,
    WorldBox.getAABB, WorldBox.getTop, WorldBox.isStair, depenStep, World.getPenetration,
    World.penStep, World.penOverlaps, World.penStairExempt, playerAABB, updateCapsuleStep,
    sq36, cfgGame, wC1, Vec3.zero]

/-- C1 witness: a player resting grounded at y = 0 on the flat box world
snaps to (and stays at) the queried ground height. -/
theorem c1_witness :
    (update sq0 ⟨1, 0, 0⟩ ⟨0, 0, 1⟩ wFlat cfgGame c2Landed (1/10)).position.y =
      tickGroundHeight wFlat
        (preVertical sq0 ⟨1, 0, 0⟩ ⟨0, 0, 1⟩ wFlat cfgGame c2Landed (1/10)).1
        (preVertical sq0 ⟨1, 0, 0⟩ ⟨0, 0, 1⟩ wFlat cfgGame c2Landed (1/10)).2 :=
  (c1_theorem sq0 ⟨1, 0, 0⟩ ⟨0, 0, 1⟩ wFlat cfgGame c2Landed (1/10)).2
    (by norm_num [c2Landed, preVertical, jumpStep, cooldownAfter, gravityStep,
      movementStep, applyMovement, applyFriction, applyGroundAcceleration,
      applyAirAcceleration, lengthVia, Vec3.lenSq, Vec3.dot, Vec3.add, Vec3.sub, Vec3.smul,
      stairClimbStep, horizontalStep, tickGroundHeight, World.getGroundHeight,
      World.groundStepBest, World.getStairClimbHeight, World.stairStepBest,
      World.checkCollision, World.boxBlocks, AABB.intersects, AABB.fromCenterExtents,
      WorldBox.getAABB, WorldBox.getTop, WorldBox.isStair, playerAABB,
      sq0, cfgGame, wFlat, Vec3.zero])

/-- C4 (amended): Update queries the vertical-collision ground height at the
resolved XZ with the pre-tick Y as the search hint (PlayerController.cpp
line 192 passes m_position.y, not the max of old and new Y; the max logic
only exists in the uncalled ResolveCollision).  Whenever the resolved Y does
not exceed the pre-tick Y — in particular while falling — this coincides
with the higher of the two and the tick equals the spec's max-hint variant. -/
theorem c4_theorem (sq : ℚ → ℚ) (fwd rgt : Vec3) (w : World) (cfg : Config)
    (s : PlayerState) (dt : ℚ)
    (hfall : (preVertical sq fwd rgt w cfg s dt).2.y ≤
      (preVertical sq fwd rgt w cfg s dt).1.position.y) :
    update sq fwd rgt w cfg s dt = updateSpecC4 sq fwd rgt w cfg s dt := by
  unfold update updateSpecC4
  dsimp only
  have hvs : verticalStep w cfg (preVertical sq fwd rgt w cfg s dt).1
      (preVertical sq fwd rgt w cfg s dt).2 =
      verticalStepSpecC4 w cfg (preVertical sq fwd rgt w cfg s dt).1
        (preVertical sq fwd rgt w cfg s dt).2 := by
    unfold verticalStep verticalStepSpecC4 tickGroundHeight
    rw [max_eq_left hfall]
  rw [hvs]

/-- C4 counterexample: a player at y = 0.5 moving upward mid-jump under a
box with top 0.85 whose footprint overlaps the ground-query inset: Update,
which passes the pre-tick Y = 0.5 as hint, sees only the floor and stays
airborne, while the spec's max-of-old-and-new-Y variant sees the box top
(0.593 >= 0.85 - 0.3) and snaps onto it — the resulting states differ. -/
theorem c4_counterexample :
    update sq0 ⟨1, 0, 0⟩ ⟨0, 0, 1⟩ wC4 cfgGame c4Start (1/60) ≠
    updateSpecC4 sq0 ⟨1, 0, 0⟩ ⟨0, 0, 1⟩ wC4 cfgGame c4Start (1/60) := by
  norm_num [c4Start, updateSpecC4, verticalStepSpecC4, update, preVertical, jumpStep, cooldownAfter, gravityStep,
    movementStep, applyMovement, applyFriction, applyGroundAcceleration,
    applyAirAcceleration, lengthVia, Vec3.lenSq, Vec3.dot, Vec3.add, Vec3.sub, Vec3.smul,
    stairClimbStep, horizontalStep, verticalStep, tickGroundHeight, World.getGroundHeight,
    World.groundStepBest, World.getStairClimbHeight, World.stairStepBest,
    World.checkCollision, World.boxBlocks, AABB.intersects, AABB.fromCenterExtents,
    WorldBox.getAABB, WorldBox.getTop, WorldBox.isStair, depenStep, World.getPenetration,
    World.penStep, World.penOverlaps, World.penStairExempt, playerAABB, updateCapsuleStep,
    sq0, cfgGame, wC4, Vec3.zero, PlayerState.mk.injEq, Vec3.mk.injEq, GroundInfo.mk.injEq,
    tagDefaultNeStair]

/-- C4 witness: on the first falling tick of the flat-ground scenario the
resolved Y (19/4) is below the pre-tick Y (5), and Update coincides with
the spec's max-hint variant. -/
theorem c4_witness :
    update sq0 ⟨1, 0, 0⟩ ⟨0, 0, 1⟩ wFlat cfgGame c2Start (1/10) =
      updateSpecC4 sq0 ⟨1, 0, 0⟩ ⟨0, 0, 1⟩ wFlat cfgGame c2Start (1/10) :=
  c4_theorem sq0 ⟨1, 0, 0⟩ ⟨0, 0, 1⟩ wFlat cfgGame c2Start (1/10)
    (by norm_num [c2Start, preVertical, jumpStep, cooldownAfter, gravityStep,
      movementStep, applyMovement, applyFriction, applyGroundAcceleration,
      applyAirAcceleration, lengthVia, Vec3.lenSq, Vec3.dot, Vec3.add, Vec3.sub, Vec3.smul,
      stairClimbStep, horizontalStep, tickGroundHeight, World.getGroundHeight,
      World.groundStepBest, World.getStairClimbHeight, World.stairStepBest,
      World.checkCollision, World.boxBlocks, AABB.intersects, AABB.fromCenterExtents,
      WorldBox.getAABB, WorldBox.getTop, WorldBox.isStair, playerAABB,
      sq0, cfgGame, wFlat, Vec3.zero])

theorem landTick1 : c2Tick c2Start =
    { position := ⟨0, 19/4, 0⟩, velocity := ⟨0, -5/2, 0⟩ } := by
  norm_num [c2Tick, c2Start, update, preVertical, jumpStep, cooldownAfter, gravityStep,
    movementStep, applyMovement, applyFriction, applyGroundAcceleration,
    applyAirAcceleration, lengthVia, Vec3.lenSq, Vec3.dot, Vec3.add, Vec3.sub, Vec3.smul,
    stairClimbStep, horizontalStep, verticalStep, tickGroundHeight, World.getGroundHeight,
    World.groundStepBest, World.getStairClimbHeight, World.stairStepBest,
    World.checkCollision, World.boxBlocks, AABB.intersects, AABB.fromCenterExtents,
    WorldBox.getAABB, WorldBox.getTop, WorldBox.isStair, depenStep, World.getPenetration,
    World.penStep, World.penOverlaps, World.penStairExempt, playerAABB, updateCapsuleStep,
    sq0, cfgGame, wFlat, Vec3.zero]

theorem landTick2 : c2Tick { position := ⟨0, 19/4, 0⟩, velocity := ⟨0, -5/2, 0⟩ } =
    { position := ⟨0, 17/4, 0⟩, velocity := ⟨0, -5, 0⟩ } := by
  norm_num [c2Tick, update, preVertical, jumpStep, cooldownAfter, gravityStep,
    movementStep, applyMovement, applyFriction, applyGroundAcceleration,
    applyAirAcceleration, lengthVia, Vec3.lenSq, Vec3.dot, Vec3.add, Vec3.sub, Vec3.smul,
    stairClimbStep, horizontalStep, verticalStep, tickGroundHeight, World.getGroundHeight,
    World.groundStepBest, World.getStairClimbHeight, World.stairStepBest,
    World.checkCollision, World.boxBlocks, AABB.intersects, AABB.fromCenterExtents,
    WorldBox.getAABB, WorldBox.getTop, WorldBox.isStair, depenStep, World.getPenetration,
    World.penStep, World.penOverlaps, World.penStairExempt, playerAABB, updateCapsuleStep,
    sq0, cfgGame, wFlat, Vec3.zero]

theorem landTick3 : c2Tick { position := ⟨0, 17/4, 0⟩, velocity := ⟨0, -5, 0⟩ } =
    { position := ⟨0, 7/2, 0⟩, velocity := ⟨0, -15/2, 0⟩ } := by
  norm_num [c2Tick, update, preVertical, jumpStep, cooldownAfter, gravityStep,
    movementStep, applyMovement, applyFriction, applyGroundAcceleration,
    applyAirAcceleration, lengthVia, Vec3.lenSq, Vec3.dot, Vec3.add, Vec3.sub, Vec3.smul,
    stairClimbStep, horizontalStep, verticalStep, tickGroundHeight, World.getGroundHeight,
    World.groundStepBest, World.getStairClimbHeight, World.stairStepBest,
    World.checkCollision, World.boxBlocks, AABB.intersects, AABB.fromCenterExtents,
    WorldBox.getAABB, WorldBox.getTop, WorldBox.isStair, depenStep, World.getPenetration,
    World.penStep, World.penOverlaps, World.penStairExempt, playerAABB, updateCapsuleStep,
    sq0, cfgGame, wFlat, Vec3.zero]

theorem landTick4 : c2Tick { position := ⟨0, 7/2, 0⟩, velocity := ⟨0, -15/2, 0⟩ } =
    { position := ⟨0, 5/2, 0⟩, velocity := ⟨0, -10, 0⟩ } := by
  norm_num [c2Tick, update, preVertical, jumpStep, cooldownAfter, gravityStep,
    movementStep, applyMovement, applyFriction, applyGroundAcceleration,
    applyAirAcceleration, lengthVia, Vec3.lenSq, Vec3.dot, Vec3.add, Vec3.sub, Vec3.smul,
    stairClimbStep, horizontalStep, verticalStep, tickGroundHeight, World.getGroundHeight,
    World.groundStepBest, World.getStairClimbHeight, World.stairStepBest,
    World.checkCollision, World.boxBlocks, AABB.intersects, AABB.fromCenterExtents,
    WorldBox.getAABB, WorldBox.getTop, WorldBox.isStair, depenStep, World.getPenetration,
    World.penStep, World.penOverlaps, World.penStairExempt, playerAABB, updateCapsuleStep,
    sq0, cfgGame, wFlat, Vec3.zero]

theorem landTick5 : c2Tick { position := ⟨0, 5/2, 0⟩, velocity := ⟨0, -10, 0⟩ } =
    { position := ⟨0, 5/4, 0⟩, velocity := ⟨0, -25/2, 0⟩ } := by
  norm_num [c2Tick, update, preVertical, jumpStep, cooldownAfter, gravityStep,
    movementStep, applyMovement, applyFriction, applyGroundAcceleration,
    applyAirAcceleration, lengthVia, Vec3.lenSq, Vec3.dot, Vec3.add, Vec3.sub, Vec3.smul,
    stairClimbStep, horizontalStep, verticalStep, tickGroundHeight, World.getGroundHeight,
    World.groundStepBest, World.getStairClimbHeight, World.stairStepBest,
    World.checkCollision, World.boxBlocks, AABB.intersects, AABB.fromCenterExtents,
    WorldBox.getAABB, WorldBox.getTop, WorldBox.isStair, depenStep, World.getPenetration,
    World.penStep, World.penOverlaps, World.penStairExempt, playerAABB, updateCapsuleStep,
    sq0, cfgGame, wFlat, Vec3.zero]

theorem landTick6 : c2Tick { position := ⟨0, 5/4, 0⟩, velocity := ⟨0, -25/2, 0⟩ } =
    c2Landed := by
  norm_num [c2Tick, c2Landed, update, preVertical, jumpStep, cooldownAfter, gravityStep,
    movementStep, applyMovement, applyFriction, applyGroundAcceleration,
    applyAirAcceleration, lengthVia, Vec3.lenSq, Vec3.dot, Vec3.add, Vec3.sub, Vec3.smul,
    stairClimbStep, horizontalStep, verticalStep, tickGroundHeight, World.getGroundHeight,
    World.groundStepBest, World.getStairClimbHeight, World.stairStepBest,
    World.checkCollision, World.boxBlocks, AABB.intersects, AABB.fromCenterExtents,
    WorldBox.getAABB, WorldBox.getTop, WorldBox.isStair, depenStep, World.getPenetration,
    World.penStep, World.penOverlaps, World.penStairExempt, playerAABB, updateCapsuleStep,
    sq0, cfgGame, wFlat, Vec3.zero]

theorem landTick7 : c2Tick c2Landed = c2Landed := by
  norm_num [c2Tick, c2Landed, update, preVertical, jumpStep, cooldownAfter, gravityStep,
    movementStep, applyMovement, applyFriction, applyGroundAcceleration,
    applyAirAcceleration, lengthVia, Vec3.lenSq, Vec3.dot, Vec3.add, Vec3.sub, Vec3.smul,
    stairClimbStep, horizontalStep, verticalStep, tickGroundHeight, World.getGroundHeight,
    World.groundStepBest, World.getStairClimbHeight, World.stairStepBest,
    World.checkCollision, World.boxBlocks, AABB.intersects, AABB.fromCenterExtents,
    WorldBox.getAABB, WorldBox.getTop, WorldBox.isStair, depenStep, World.getPenetration,
    World.penStep, World.penOverlaps, World.penStairExempt, playerAABB, updateCapsuleStep,
    sq0, cfgGame, wFlat, Vec3.zero]

theorem landRun8 : c2Run 8 = c2Landed := by
  show c2Tick (c2Tick (c2Tick (c2Tick (c2Tick (c2Tick (c2Tick (c2Tick c2Start))))))) = c2Landed
  rw [landTick1, landTick2, landTick3, landTick4, landTick5, landTick6, landTick7, landTick7]

/-- C2: whenever the provisionally resolved Y is at or below the tick's
queried ground height, the tick ends with position.y equal to that ground
height, velocity.y zeroed exactly when it was negative, isGrounded = true,
isJumping = false and airJumpsRemaining reset to the configured maximum
(the depenetration step touches none of these).  In particular the player
spawned at (0,5,0) with zero velocity over a flat solid box with top y = 0
ends, after 8 ticks of dt = 1/10, grounded at position.y = 0 with
velocity.y = 0. -/
theorem c2_theorem :
    (∀ (sq : ℚ → ℚ) (fwd rgt : Vec3) (w : World) (cfg : Config) (s : PlayerState) (dt : ℚ),
      (preVertical sq fwd rgt w cfg s dt).2.y ≤
        tickGroundHeight w (preVertical sq fwd rgt w cfg s dt).1 (preVertical sq fwd rgt w cfg s dt).2 →
      (update sq fwd rgt w cfg s dt).position.y =
        tickGroundHeight w (preVertical sq fwd rgt w cfg s dt).1 (preVertical sq fwd rgt w cfg s dt).2 ∧
      (update sq fwd rgt w cfg s dt).velocity.y =
        (if (preVertical sq fwd rgt w cfg s dt).1.velocity.y < 0 then 0
         else (preVertical sq fwd rgt w cfg s dt).1.velocity.y) ∧
      (update sq fwd rgt w cfg s dt).groundInfo.isGrounded = true ∧
      (update sq fwd rgt w cfg s dt).isJumping = false ∧
      (update sq fwd rgt w cfg s dt).airJumpsRemaining = cfg.maxAirJumps) ∧
    ((c2Run 8).groundInfo.isGrounded = true ∧ (c2Run 8).position.y = 0 ∧
      (c2Run 8).velocity.y = 0) := by
  constructor
  · intro sq fwd rgt w cfg s dt hle
    exact snapCase_props sq fwd rgt w cfg s dt hle
  · rw [landRun8]
    exact ⟨rfl, rfl, rfl⟩

/-- C2 witness: the grounded resting state on the flat box world takes the
snap branch and the tick reports isGrounded = true. -/
theorem c2_witness :
    (update sq0 ⟨1, 0, 0⟩ ⟨0, 0, 1⟩ wFlat cfgGame c2Landed (1/10)).groundInfo.isGrounded = true :=
  (c2_theorem.1 sq0 ⟨1, 0, 0⟩ ⟨0, 0, 1⟩ wFlat cfgGame c2Landed (1/10)
    (by norm_num [c2Landed, preVertical, jumpStep, cooldownAfter, gravityStep,
      movementStep, applyMovement, applyFriction, applyGroundAcceleration,
      applyAirAcceleration, lengthVia, Vec3.lenSq, Vec3.dot, Vec3.add, Vec3.sub, Vec3.smul,
      stairClimbStep, horizontalStep, tickGroundHeight, World.getGroundHeight,
      World.groundStepBest, World.getStairClimbHeight, World.stairStepBest,
      World.checkCollision, World.boxBlocks, AABB.intersects, AABB.fromCenterExtents,
      WorldBox.getAABB, WorldBox.getTop, WorldBox.isStair, playerAABB,
      sq0, cfgGame, wFlat, Vec3.zero])).2.2.1

end Genesis
